import Mathlib

/-!
Verification development for the graphyti equation-to-geometry engine.

The definitions below are shallow embeddings of the TypeScript source:
  - the 2D sampler/segmenter and longest-segment assembler of
    GraphRenderer.tsx (create2DFunctionGeometry) and of the custom-equation
    curve builder (createCustom2DCurve),
  - the per-branch numeric evaluators (Reciprocal, Tangent, generic
    mathjs-evaluation tails with clamping) of calculate2DFunction and
    calculateSurfaceZ,
  - the custom 3D surface grid builder (createCustom3DSurface),
  - the variable extractor and 2D/3D classifier (extractVariables,
    determineGraphType of customEquationUtils),
  - the textual domain validator (validateDomain),
  - the evaluation-scope construction (JS object spreads),
  - the LaTeX-to-mathjs notation normalizer (convertLatexToMathjs).

JS numbers are modelled by real numbers; a JS evaluation that throws or
returns NaN/Infinity is modelled by Option.none where the source inspects
isNaN/isFinite or catches, since every such outcome takes the same recovery
path in the source.
-/

namespace Graphyti

/-! ### Numeric helpers -/

/-- JS clamp idiom Math.max(lo, Math.min(hi, v)) used throughout the source. -/
def clamp (lo hi v : ℝ) : ℝ := max lo (min hi v)

/-- A 2D sample point (THREE.Vector3 with z = 0 in the source). -/
structure Pt where
  x : ℝ
  y : ℝ

/-- A 3D vertex triple as pushed by createCustom3DSurface. -/
structure V3 where
  x : ℝ
  y : ℝ
  z : ℝ

/-! ### Sampler / segmenter

Embeds the sweep loop shared by create2DFunctionGeometry (GraphRenderer.tsx)
and createCustom2DCurve: a valid sample is appended to the current segment;
an invalid one (NaN/Infinity result, domain rejection, or a thrown
exception) flushes the current segment when it has more than one point and
starts a new one; at sweep end the last segment is flushed the same way. -/

/-- One iteration of the sweep loop acting on (segments, currentSegment). -/
def segStep {β : Type} (acc : List (List β) × List β) (p : Option β) :
    List (List β) × List β :=
  match p with
  | some q => (acc.1, acc.2 ++ [q])
  | none => (if 1 < acc.2.length then acc.1 ++ [acc.2] else acc.1, [])

/-- The full sweep over sample indices 0..n (the source iterates
i = 0..resolution inclusive), returning the collected segments. -/
def segmentsOf {β : Type} (f : ℕ → Option β) (n : ℕ) : List (List β) :=
  let st := (List.range (n + 1)).foldl (fun acc i => segStep acc (f i)) ([], [])
  if 1 < st.2.length then st.1 ++ [st.2] else st.1

/-- The longest-segment selection loop of the source: start from
segments[0] and replace whenever a strictly longer segment is seen, so ties
keep the earlier segment; an empty segment list yields an empty polyline
(the source returns a geometry built from an empty point list). -/
def chooseLongest {β : Type} (segs : List (List β)) : List β :=
  match segs with
  | [] => []
  | s :: rest =>
      (s :: rest).foldl (fun best seg => if best.length < seg.length then seg else best) s

/-! ### Structural lemmas about the segmenter -/

theorem segFold_all_some {β : Type} (f : ℕ → Option β) :
    ∀ (l : List ℕ) (acc : List (List β) × List β),
      (∀ i ∈ l, (f i).isSome) →
      l.foldl (fun acc i => segStep acc (f i)) acc = (acc.1, acc.2 ++ l.filterMap f) := by
  intro l
  induction l with
  | nil => intro acc _; simp
  | cons i l ih =>
      intro acc h
      obtain ⟨v, hv⟩ := Option.isSome_iff_exists.mp (h i (by simp))
      have hrest : ∀ j ∈ l, (f j).isSome := fun j hj => h j (by simp [hj])
      simp only [List.foldl_cons, List.filterMap_cons, hv]
      rw [ih _ hrest]
      simp [segStep, hv]

theorem length_filterMap_of_all_some {β : Type} (f : ℕ → Option β) :
    ∀ l : List ℕ, (∀ i ∈ l, (f i).isSome) → (l.filterMap f).length = l.length := by
  intro l
  induction l with
  | nil => intro _; simp
  | cons i l ih =>
      intro h
      obtain ⟨v, hv⟩ := Option.isSome_iff_exists.mp (h i (by simp))
      have hrest : ∀ j ∈ l, (f j).isSome := fun j hj => h j (by simp [hj])
      simp [List.filterMap_cons, hv, ih hrest]

/-- When every sample of the sweep is valid, the segmenter returns a single
segment holding every sample point, provided there are at least two samples. -/
theorem segmentsOf_all_some {β : Type} (f : ℕ → Option β) (n : ℕ)
    (hn : 1 ≤ n) (h : ∀ i, i ≤ n → (f i).isSome) :
    segmentsOf f n = [(List.range (n + 1)).filterMap f] := by
  have hall : ∀ i ∈ List.range (n + 1), (f i).isSome := by
    intro i hi
    exact h i (Nat.lt_succ_iff.mp (List.mem_range.mp hi))
  have hfold := segFold_all_some f (List.range (n + 1)) ([], []) hall
  have hlen : ((List.range (n + 1)).filterMap f).length = n + 1 := by
    rw [length_filterMap_of_all_some f _ hall, List.length_range]
  unfold segmentsOf
  rw [hfold]
  simp only [List.nil_append]
  rw [if_pos (by omega)]

theorem segFold_min_length {β : Type} (f : ℕ → Option β) :
    ∀ (l : List ℕ) (acc : List (List β) × List β),
      (∀ s ∈ acc.1, 2 ≤ s.length) →
      ∀ s ∈ (l.foldl (fun acc i => segStep acc (f i)) acc).1, 2 ≤ s.length := by
  intro l
  induction l with
  | nil => intro acc h; simpa using h
  | cons i l ih =>
      intro acc h
      apply ih
      intro s hs
      match hf : f i with
      | some q =>
          simp only [segStep, hf] at hs
          exact h s hs
      | none =>
          simp only [segStep, hf] at hs
          by_cases hlen : 1 < acc.2.length
          · rw [if_pos hlen] at hs
            rcases List.mem_append.mp hs with h1 | h2
            · exact h s h1
            · rw [List.mem_singleton.mp h2]; omega
          · rw [if_neg hlen] at hs
            exact h s hs

/-- Every segment collected by the segmenter has at least two points: a
maximal run of a single valid sample is dropped, never emitted. -/
theorem segmentsOf_min_length {β : Type} (f : ℕ → Option β) (n : ℕ) :
    ∀ s ∈ segmentsOf f n, 2 ≤ s.length := by
  intro s hs
  unfold segmentsOf at hs
  set st := (List.range (n + 1)).foldl (fun acc i => segStep acc (f i)) ([], []) with hst
  have hfold : ∀ s ∈ st.1, 2 ≤ s.length := by
    rw [hst]
    exact segFold_min_length f (List.range (n + 1)) ([], []) (by simp)
  by_cases hlen : 1 < st.2.length
  · rw [if_pos hlen] at hs
    rcases List.mem_append.mp hs with h1 | h2
    · exact hfold s h1
    · rw [List.mem_singleton.mp h2]; omega
  · rw [if_neg hlen] at hs
    exact hfold s hs

theorem segFold_pred {β : Type} (Q : β → Prop) (f : ℕ → Option β)
    (hf : ∀ i b, f i = some b → Q b) :
    ∀ (l : List ℕ) (acc : List (List β) × List β),
      (∀ s ∈ acc.1, ∀ p ∈ s, Q p) → (∀ p ∈ acc.2, Q p) →
      (∀ s ∈ (l.foldl (fun acc i => segStep acc (f i)) acc).1, ∀ p ∈ s, Q p) ∧
        (∀ p ∈ (l.foldl (fun acc i => segStep acc (f i)) acc).2, Q p) := by
  intro l
  induction l with
  | nil => intro acc h1 h2; exact ⟨h1, h2⟩
  | cons i l ih =>
      intro acc h1 h2
      apply ih
      · intro s hs p hp
        match hfi : f i with
        | some q =>
            simp only [segStep, hfi] at hs
            exact h1 s hs p hp
        | none =>
            simp only [segStep, hfi] at hs
            by_cases hlen : 1 < acc.2.length
            · rw [if_pos hlen] at hs
              rcases List.mem_append.mp hs with ha | hb
              · exact h1 s ha p hp
              · rw [List.mem_singleton.mp hb] at hp
                exact h2 p hp
            · rw [if_neg hlen] at hs
              exact h1 s hs p hp
      · intro p hp
        match hfi : f i with
        | some q =>
            simp only [segStep, hfi] at hp
            rcases List.mem_append.mp hp with ha | hb
            · exact h2 p ha
            · rw [List.mem_singleton.mp hb]
              exact hf i q hfi
        | none =>
            simp only [segStep, hfi] at hp
            simp at hp

/-- Every point of every collected segment is a value the evaluator actually
produced as a valid sample. -/
theorem segmentsOf_pred {β : Type} (Q : β → Prop) (f : ℕ → Option β)
    (hf : ∀ i b, f i = some b → Q b) (n : ℕ) :
    ∀ s ∈ segmentsOf f n, ∀ p ∈ s, Q p := by
  intro s hs p hp
  unfold segmentsOf at hs
  set st := (List.range (n + 1)).foldl (fun acc i => segStep acc (f i)) ([], []) with hst
  have hinv := segFold_pred Q f hf (List.range (n + 1)) ([], []) (by simp) (by simp)
  rw [← hst] at hinv
  by_cases hlen : 1 < st.2.length
  · rw [if_pos hlen] at hs
    rcases List.mem_append.mp hs with ha | hb
    · exact hinv.1 s ha p hp
    · rw [List.mem_singleton.mp hb] at hp
      exact hinv.2 p hp
  · rw [if_neg hlen] at hs
    exact hinv.1 s hs p hp

theorem pickFold_spec {β : Type} :
    ∀ (l : List (List β)) (b : List β),
      (l.foldl (fun best seg => if best.length < seg.length then seg else best) b = b ∧
        ∀ s ∈ l, s.length ≤ b.length) ∨
      (∃ i : Fin l.length,
        l.foldl (fun best seg => if best.length < seg.length then seg else best) b = l.get i ∧
        b.length < (l.get i).length ∧
        (∀ j : Fin l.length, j.val < i.val → (l.get j).length < (l.get i).length) ∧
        (∀ s ∈ l, s.length ≤ (l.get i).length)) := by
  intro l
  induction l with
  | nil => intro b; left; exact ⟨rfl, by simp⟩
  | cons s l ih =>
      intro b
      rw [List.foldl_cons]
      by_cases hcmp : b.length < s.length
      · rw [if_pos hcmp]
        rcases ih s with ⟨hr, hall⟩ | ⟨i, hr, hlt, hbef, hall⟩
        · right
          refine ⟨⟨0, by simp⟩, by simpa using hr, by simpa using hcmp, ?_, ?_⟩
          · intro j hj
            exact absurd hj (Nat.not_lt_zero _)
          · intro t ht
            rcases List.mem_cons.mp ht with h1 | h2
            · simp [h1]
            · simpa using hall t h2
        · right
          refine ⟨⟨i.val + 1, Nat.succ_lt_succ i.isLt⟩, by simpa using hr, ?_, ?_, ?_⟩
          · calc b.length < s.length := hcmp
              _ < _ := by simpa using hlt
          · intro j hj
            match j with
            | ⟨0, h0⟩ => simpa using hlt
            | ⟨jv + 1, hjv⟩ =>
                have := hbef ⟨jv, Nat.lt_of_succ_lt_succ hjv⟩ (Nat.lt_of_succ_lt_succ hj)
                simpa using this
          · intro t ht
            rcases List.mem_cons.mp ht with h1 | h2
            · rw [h1]
              exact le_of_lt (by simpa using hlt)
            · simpa using hall t h2
      · rw [if_neg hcmp]
        rcases ih b with ⟨hr, hall⟩ | ⟨i, hr, hlt, hbef, hall⟩
        · left
          refine ⟨hr, ?_⟩
          intro t ht
          rcases List.mem_cons.mp ht with h1 | h2
          · rw [h1]; omega
          · exact hall t h2
        · right
          refine ⟨⟨i.val + 1, Nat.succ_lt_succ i.isLt⟩, by simpa using hr, ?_, ?_, ?_⟩
          · simpa using hlt
          · intro j hj
            match j with
            | ⟨0, h0⟩ =>
                have : s.length ≤ b.length := by omega
                calc ((s :: l).get ⟨0, h0⟩).length = s.length := rfl
                  _ ≤ b.length := this
                  _ < _ := by simpa using hlt
            | ⟨jv + 1, hjv⟩ =>
                have := hbef ⟨jv, Nat.lt_of_succ_lt_succ hjv⟩ (Nat.lt_of_succ_lt_succ hj)
                simpa using this
          · intro t ht
            rcases List.mem_cons.mp ht with h1 | h2
            · rw [h1]
              calc s.length ≤ b.length := by omega
                _ ≤ _ := le_of_lt (by simpa using hlt)
            · simpa using hall t h2

/-- The assembler returns the segment with the greatest point count, ties
broken by first-seen order: the chosen segment occurs in the list, no
segment is longer, and every earlier segment is strictly shorter. -/
theorem chooseLongest_spec {β : Type} (segs : List (List β)) (h : segs ≠ []) :
    ∃ k : Fin segs.length, chooseLongest segs = segs.get k ∧
      (∀ s ∈ segs, s.length ≤ (segs.get k).length) ∧
      ∀ j : Fin segs.length, j.val < k.val → (segs.get j).length < (segs.get k).length := by
  match segs with
  | [] => exact absurd rfl h
  | s :: rest =>
      have hstep : chooseLongest (s :: rest) =
          rest.foldl (fun best seg => if best.length < seg.length then seg else best) s := by
        simp [chooseLongest, List.foldl_cons]
      rcases pickFold_spec rest s with ⟨hr, hall⟩ | ⟨i, hr, hlt, hbef, hall⟩
      · refine ⟨⟨0, by simp⟩, by simpa [hstep] using hr, ?_, ?_⟩
        · intro t ht
          rcases List.mem_cons.mp ht with h1 | h2
          · simp [h1]
          · simpa using hall t h2
        · intro j hj
          exact absurd hj (Nat.not_lt_zero _)
      · refine ⟨⟨i.val + 1, Nat.succ_lt_succ i.isLt⟩, by simpa [hstep] using hr, ?_, ?_⟩
        · intro t ht
          rcases List.mem_cons.mp ht with h1 | h2
          · rw [h1]
            exact le_of_lt (by simpa using hlt)
          · simpa using hall t h2
        · intro j hj
          match j with
          | ⟨0, h0⟩ => simpa using hlt
          | ⟨jv + 1, hjv⟩ =>
              have := hbef ⟨jv, Nat.lt_of_succ_lt_succ hjv⟩ (Nat.lt_of_succ_lt_succ hj)
              simpa using this

/-- The chosen polyline is one of the collected segments when any exist. -/
theorem chooseLongest_mem {β : Type} (segs : List (List β)) (h : segs ≠ []) :
    chooseLongest segs ∈ segs := by
  obtain ⟨k, hk, -, -⟩ := chooseLongest_spec segs h
  rw [hk]
  exact List.get_mem segs k k.isLt

/-- With no segments at all, the assembler produces the empty polyline. -/
theorem chooseLongest_nil {β : Type} : chooseLongest ([] : List (List β)) = [] := rfl

/-! ### String helpers

JS String.prototype.includes, modelled on character lists. -/

def isPrefixList : List Char → List Char → Bool
  | [], _ => true
  | _ :: _, [] => false
  | a :: as, b :: bs => a == b && isPrefixList as bs

def containsList (needle : List Char) : List Char → Bool
  | [] => needle.isEmpty
  | h :: t => isPrefixList needle (h :: t) || containsList needle t

/-- JS hay.includes(needle). -/
def strIncludes (hay needle : String) : Bool := containsList needle.data hay.data

/-- ASCII whitespace for the JS trim model. -/
def isSpaceChar (c : Char) : Bool := c == ' ' || c == '\t' || c == '\n' || c == '\r'

/-- JS String.prototype.trim, modelled on the character list. -/
def jsTrim (s : String) : String :=
  String.mk (((s.data.dropWhile isSpaceChar).reverse.dropWhile isSpaceChar).reverse)

/-- Lowercasing of one ASCII character. -/
def charLower (c : Char) : Char :=
  if 'A' ≤ c && c ≤ 'Z' then Char.ofNat (c.toNat + 32) else c

/-- JS String.prototype.toLowerCase (ASCII fragment). -/
def jsToLower (s : String) : String := String.mk (s.data.map charLower)

/-- JS String.prototype.startsWith. -/
def jsStartsWith (s pre : String) : Bool := isPrefixList pre.data s.data

/-- JS String.prototype.includes for a single character. -/
def jsContainsChar (s : String) (c : Char) : Bool := s.data.contains c

/-! ### Variable extraction and 2D/3D classification
(customEquationUtils.ts: extractVariables, determineGraphType)

The mathjs parse tree is modelled by MathNode below; the parse results of
the concrete inputs exercised by the claims are spelled out as explicit
trees, matching the mathjs AST for those strings (an assignment node
exposes its left-hand SymbolNode to traversal, and a function application
exposes its function-name SymbolNode). -/

inductive MathNode where
  | sym (name : String)
  | num (v : ℚ)
  | op (name : String) (args : List MathNode)
  | func (fn : MathNode) (args : List MathNode)
  | assign (obj : MathNode) (value : MathNode)

mutual

/-- Preorder traversal collecting every SymbolNode name (mathjs
node.traverse over SymbolNode). -/
def collectSymbols : MathNode → List String
  | .sym n => [n]
  | .num _ => []
  | .op _ args => collectSymbolsList args
  | .func fn args => collectSymbols fn ++ collectSymbolsList args
  | .assign obj value => collectSymbols obj ++ collectSymbols value

def collectSymbolsList : List MathNode → List String
  | [] => []
  | n :: rest => collectSymbols n ++ collectSymbolsList rest

end

/-- The constant/function names excluded from the extracted variable set. -/
def mathBuiltins : List String :=
  ["e", "pi", "PI", "E", "sin", "cos", "tan", "log", "ln", "sqrt", "abs", "exp", "pow"]

/-- Lexicographic order on character lists, as JS default string sort. -/
def charListLt : List Char → List Char → Bool
  | [], [] => false
  | [], _ :: _ => true
  | _ :: _, [] => false
  | a :: as, b :: bs =>
      if a.toNat < b.toNat then true
      else if b.toNat < a.toNat then false
      else charListLt as bs

def strLt (a b : String) : Bool := charListLt a.data b.data

def insertSorted (s : String) : List String → List String
  | [] => [s]
  | h :: t => if strLt h s then h :: insertSorted s t else s :: h :: t

/-- Ascending sort, as JS Array.prototype.sort on strings. -/
def sortStrings (l : List String) : List String := l.foldr insertSorted []

/-- extractVariables: collect symbol names, drop builtins, deduplicate (the
source accumulates into a Set), and sort. -/
def extractVariables (ast : MathNode) : List String :=
  sortStrings (((collectSymbols ast).filter (fun s => !(mathBuiltins.contains s))).dedup)

inductive GraphKind where
  | twoD
  | threeD
deriving DecidableEq

/-- The parameter-like variable names of determineGraphType. -/
def commonParameterVars : List String := ["t", "u", "v", "theta", "phi", "r"]

/-- determineGraphType (customEquationUtils.ts, two-argument version): the
equation is 3D when its trimmed lowercased text starts with z and the text
contains an equals sign anywhere; otherwise when at least two extracted
variables lie outside the parameter-like set. -/
def determineGraphType (equation : String) (vars : List String) : GraphKind :=
  let trimmedEquation := jsToLower (jsTrim equation)
  if jsStartsWith trimmedEquation "z" && jsContainsChar equation '=' then .threeD
  else
    let inputVars := vars.filter (fun v => !(commonParameterVars.contains v))
    if 2 ≤ inputVars.length then .threeD else .twoD

/-- createCustomGraph composes extraction and type determination. -/
def classify (raw : String) (ast : MathNode) : GraphKind :=
  determineGraphType raw (extractVariables ast)

/-- mathjs parse tree of the string y = sin(x). -/
def astYSinX : MathNode := .assign (.sym "y") (.func (.sym "sin") [.sym "x"])

/-- mathjs parse tree of the string z = x^2 + y^2. -/
def astZParab : MathNode :=
  .assign (.sym "z")
    (.op "add" [.op "pow" [.sym "x", .num 2], .op "pow" [.sym "y", .num 2]])

/-- mathjs parse tree of the string x^2 - y^2. -/
def astSaddle : MathNode :=
  .op "subtract" [.op "pow" [.sym "x", .num 2], .op "pow" [.sym "y", .num 2]]

/-- C1 counterexample: the classifier maps the string y = sin(x) to the 3D
kind, not the 2D kind the claim asserts, because the left-hand symbol y is
itself extracted as a variable, giving two variables outside the
parameter-like set. -/
theorem c1_counterexample :
    classify "y = sin(x)" astYSinX = GraphKind.threeD ∧
      GraphKind.threeD ≠ GraphKind.twoD := by
  exact ⟨by decide, by decide⟩

/-- C1 (amended): the classifier returns 3D exactly when the trimmed
lowercased text starts with z and the raw text contains an equals sign
anywhere, or at least two extracted variables lie outside the
parameter-like set {t, u, v, theta, phi, r}; classify of z = x^2 + y^2 is
3D, and classify of y = sin(x) is also 3D (not 2D as the original claim
states), since its extracted variables are x and y. -/
theorem c1_theorem :
    (∀ (equation : String) (vs : List String),
      determineGraphType equation vs = GraphKind.threeD ↔
        ((jsStartsWith (jsToLower (jsTrim equation)) "z" && jsContainsChar equation '=') = true ∨
          2 ≤ (vs.filter (fun v => !(commonParameterVars.contains v))).length)) ∧
    classify "z = x^2 + y^2" astZParab = GraphKind.threeD ∧
    classify "y = sin(x)" astYSinX = GraphKind.threeD := by
  refine ⟨?_, by decide, by decide⟩
  intro equation vs
  unfold determineGraphType
  by_cases h1 : (jsStartsWith (jsToLower (jsTrim equation)) "z" && jsContainsChar equation '=') = true
  · simp [h1]
  · by_cases h2 : 2 ≤ (vs.filter (fun v => !(commonParameterVars.contains v))).length
    · simp [h1, h2]
    · simp [h1, h2]

/-! ### Domain validator (customEquationUtils.ts: validateDomain)

The source pattern-matches the lowercased expression text and rejects
coordinates by a fixed cascade of early returns; the tangent test evaluates
the actual cosine. Real-number comparisons use classical decidability, so
the definition is noncomputable, matching the transcendental test in the
source. -/

noncomputable def validateDomain (equation : String) (x : ℝ) (y : Option ℝ) : Bool :=
  let lowerEq := jsToLower equation
  if (strIncludes lowerEq "log" || strIncludes lowerEq "ln") && decide (x ≤ 0) then false
  else if (strIncludes lowerEq "log" || strIncludes lowerEq "ln") &&
      (y.any fun yv => decide (yv ≤ 0)) && strIncludes lowerEq "y" then false
  else if strIncludes lowerEq "sqrt" && decide (x < 0) then false
  else if strIncludes lowerEq "sqrt" && (y.any fun yv => decide (yv < 0)) &&
      strIncludes lowerEq "y" then false
  else if strIncludes lowerEq "1/x" && decide (|x| < 1e-10) then false
  else if strIncludes lowerEq "tan" && decide (|Real.cos x| < 1e-6) then false
  else true

/-- The absolute value of cosine is invariant under shifts by integer
multiples of pi. -/
theorem abs_cos_add_int_mul_pi (θ : ℝ) (k : ℤ) :
    |Real.cos (θ + k * Real.pi)| = |Real.cos θ| := by
  rw [Real.cos_add, Real.sin_int_mul_pi, mul_zero, sub_zero, abs_mul,
    Real.abs_cos_int_mul_pi, mul_one]

/-- Near an odd multiple of pi over two, the absolute cosine is tiny. -/
theorem abs_cos_near_odd_pi_div_two (x : ℝ) (k : ℤ)
    (h : |x - (2 * k + 1) * (Real.pi / 2)| ≤ 1e-7) : |Real.cos x| < 1e-6 := by
  set t := x - (2 * k + 1) * (Real.pi / 2) with ht
  have hx : x = (t + Real.pi / 2) + k * Real.pi := by
    rw [ht]; ring
  rw [hx, abs_cos_add_int_mul_pi, Real.cos_add_pi_div_two, abs_neg]
  calc |Real.sin t| ≤ |t| := Real.abs_sin_le_abs
    _ ≤ 1e-7 := h
    _ < 1e-6 := by norm_num

/-- C5: the domain validator decides by textual signatures: an expression
mentioning log or ln rejects x at or below zero, one mentioning sqrt
rejects negative x, the literal 1/x rejects |x| below 1e-10, tan rejects x
within 1e-7 of an odd multiple of pi over two (the source tests the
equivalent condition that the cosine is below 1e-6 in absolute value);
with none of the signatures present everything is Valid; and
validate of log(x) at x = -1 is Undefined while at x = 1 it is Valid. -/
theorem c5_theorem :
    (∀ (e : String) (x : ℝ) (y : Option ℝ),
        (strIncludes (jsToLower e) "log" || strIncludes (jsToLower e) "ln") = true →
        x ≤ 0 → validateDomain e x y = false) ∧
    (∀ (e : String) (x : ℝ) (y : Option ℝ),
        strIncludes (jsToLower e) "sqrt" = true → x < 0 → validateDomain e x y = false) ∧
    (∀ (e : String) (x : ℝ) (y : Option ℝ),
        strIncludes (jsToLower e) "1/x" = true → |x| < 1e-10 →
        validateDomain e x y = false) ∧
    (∀ (e : String) (x : ℝ) (y : Option ℝ) (k : ℤ),
        strIncludes (jsToLower e) "tan" = true →
        |x - (2 * k + 1) * (Real.pi / 2)| ≤ 1e-7 → validateDomain e x y = false) ∧
    (∀ (e : String) (x : ℝ) (y : Option ℝ),
        strIncludes (jsToLower e) "log" = false → strIncludes (jsToLower e) "ln" = false →
        strIncludes (jsToLower e) "sqrt" = false →
        strIncludes (jsToLower e) "1/x" = false →
        strIncludes (jsToLower e) "tan" = false → validateDomain e x y = true) ∧
    validateDomain "log(x)" (-1) none = false ∧
    validateDomain "log(x)" 1 none = true := by
  have ha : ∀ (e : String) (x : ℝ) (y : Option ℝ),
      (strIncludes (jsToLower e) "log" || strIncludes (jsToLower e) "ln") = true →
      x ≤ 0 → validateDomain e x y = false := by
    intro e x y h hx
    simp only [validateDomain]
    rw [if_pos]
    simp [h, hx]
  have hb : ∀ (e : String) (x : ℝ) (y : Option ℝ),
      strIncludes (jsToLower e) "sqrt" = true → x < 0 → validateDomain e x y = false := by
    intro e x y h hx
    simp only [validateDomain]
    split
    · rfl
    split
    · rfl
    rw [if_pos]
    simp [h, hx]
  have hc : ∀ (e : String) (x : ℝ) (y : Option ℝ),
      strIncludes (jsToLower e) "1/x" = true → |x| < 1e-10 →
      validateDomain e x y = false := by
    intro e x y h hx
    simp only [validateDomain]
    split
    · rfl
    split
    · rfl
    split
    · rfl
    split
    · rfl
    rw [if_pos]
    simp [h, hx]
  have hd : ∀ (e : String) (x : ℝ) (y : Option ℝ) (k : ℤ),
      strIncludes (jsToLower e) "tan" = true →
      |x - (2 * k + 1) * (Real.pi / 2)| ≤ 1e-7 → validateDomain e x y = false := by
    intro e x y k h hnear
    have hcos := abs_cos_near_odd_pi_div_two x k hnear
    simp only [validateDomain]
    split
    · rfl
    split
    · rfl
    split
    · rfl
    split
    · rfl
    split
    · rfl
    rw [if_pos]
    simp [h, hcos]
  have he : ∀ (e : String) (x : ℝ) (y : Option ℝ),
      strIncludes (jsToLower e) "log" = false → strIncludes (jsToLower e) "ln" = false →
      strIncludes (jsToLower e) "sqrt" = false →
      strIncludes (jsToLower e) "1/x" = false →
      strIncludes (jsToLower e) "tan" = false → validateDomain e x y = true := by
    intro e x y h1 h2 h3 h4 h5
    simp [validateDomain, h1, h2, h3, h4, h5]
  refine ⟨ha, hb, hc, hd, he, ?_, ?_⟩
  · exact ha "log(x)" (-1) none (by decide) (by norm_num)
  · have h1 : strIncludes (jsToLower "log(x)") "log" = true := by decide
    have h2 : strIncludes (jsToLower "log(x)") "ln" = false := by decide
    have h3 : strIncludes (jsToLower "log(x)") "sqrt" = false := by decide
    have h4 : strIncludes (jsToLower "log(x)") "1/x" = false := by decide
    have h5 : strIncludes (jsToLower "log(x)") "tan" = false := by decide
    have hx : ¬((1 : ℝ) ≤ 0) := by norm_num
    simp [validateDomain, h1, h2, h3, h4, h5, hx]

/-- C5 witness: the validator evaluated at explicit inputs through each
clause of the theorem. -/
theorem c5_witness :
    validateDomain "log(x)" (-1) none = false ∧
    validateDomain "sqrt(x)" (-2) none = false ∧
    validateDomain "1/x" 0 none = false ∧
    validateDomain "tan(x)" (Real.pi / 2) none = false ∧
    validateDomain "x^2" 5 none = true := by
  refine ⟨c5_theorem.1 "log(x)" (-1) none (by decide) (by norm_num),
    c5_theorem.2.1 "sqrt(x)" (-2) none (by decide) (by norm_num),
    c5_theorem.2.2.1 "1/x" 0 none (by decide) (by norm_num),
    c5_theorem.2.2.2.1 "tan(x)" (Real.pi / 2) none 0 (by decide) (by push_cast; norm_num),
    c5_theorem.2.2.2.2.1 "x^2" 5 none (by decide) (by decide) (by decide) (by decide)
      (by decide)⟩

/-- A sweep whose only invalid sample sits at index a, with at least two
valid samples on each side, yields exactly the two flanking segments. -/
theorem segmentsOf_one_break {β : Type} (f : ℕ → Option β) (n a : ℕ)
    (hfa : f a = none)
    (hvalid : ∀ i, i ≤ n → i ≠ a → (f i).isSome)
    (h2a : 2 ≤ a) (h2b : a + 2 ≤ n) :
    segmentsOf f n =
      [(List.range a).filterMap f, (List.range' (a + 1) (n - a)).filterMap f] := by
  have hsplit : List.range (n + 1) =
      (List.range a ++ [a]) ++ List.range' (a + 1) (n - a) := by
    have h1 : List.range' 0 a ++ List.range' (0 + 1 * a) (n + 1 - a) =
        List.range' 0 ((n + 1 - a) + a) := List.range'_append 0 a (n + 1 - a) 1
    have h2 : List.range' a (n + 1 - a) = a :: List.range' (a + 1) (n - a) := by
      have : n + 1 - a = (n - a) + 1 := by omega
      rw [this, List.range'_succ]
    rw [List.range_eq_range' (n + 1), show (n + 1 : ℕ) = (n + 1 - a) + a by omega, ← h1]
    rw [List.range_eq_range' a]
    simp only [one_mul, Nat.zero_add]
    rw [h2]
    simp
  have hmem1 : ∀ i ∈ List.range a, (f i).isSome := by
    intro i hi
    have hia := List.mem_range.mp hi
    exact hvalid i (by omega) (by omega)
  have hmem2 : ∀ i ∈ List.range' (a + 1) (n - a), (f i).isSome := by
    intro i hi
    have hia := List.mem_range'_1.mp hi
    exact hvalid i (by omega) (by omega)
  have hlen1 : ((List.range a).filterMap f).length = a := by
    rw [length_filterMap_of_all_some f _ hmem1, List.length_range]
  have hlen2 : ((List.range' (a + 1) (n - a)).filterMap f).length = n - a := by
    rw [length_filterMap_of_all_some f _ hmem2]
    simp
  unfold segmentsOf
  rw [hsplit, List.foldl_append, List.foldl_append]
  rw [segFold_all_some f _ _ hmem1]
  simp only [List.foldl_cons, List.foldl_nil, List.nil_append]
  have hstep : segStep (([] : List (List β)), (List.range a).filterMap f) (f a) =
      ([(List.range a).filterMap f], []) := by
    rw [hfa]
    simp [segStep, hlen1]
    omega
  rw [hstep]
  rw [segFold_all_some f _ _ hmem2]
  simp only [List.nil_append]
  rw [if_pos (by omega)]
  rfl

/-! ### The 2D function sweep of GraphRenderer.tsx -/

/-- Sample abscissa of create2DFunctionGeometry: x = -range + i * step with
step = (2 * range) / resolution. -/
noncomputable def sampleX (range : ℝ) (resolution : ℕ) (i : ℕ) : ℝ :=
  -range + i * (2 * range / resolution)

/-- One sweep sample: a valid finite evaluation contributes the point
(x, y); NaN/Infinity or a thrown evaluation contributes nothing. -/
noncomputable def graph2DPoints (eval : ℝ → Option ℝ) (resolution : ℕ) (i : ℕ) : Option Pt :=
  (eval (sampleX 10 resolution i)).map (fun yv => Pt.mk (sampleX 10 resolution i) yv)

/-- create2DFunctionGeometry: sweep, segment, and keep the longest segment
(first seen on ties). -/
noncomputable def create2DFunctionGeometry (eval : ℝ → Option ℝ) (resolution : ℕ) : List Pt :=
  chooseLongest (segmentsOf (graph2DPoints eval resolution) resolution)

/-- The Reciprocal Function (Hyperbola) branch of calculate2DFunction:
y = yScale / (x * xScale), with y = 0 substituted at x * xScale = 0; xScale
and yScale default to 1 when the control values are absent or zero. -/
noncomputable def reciprocalCalc (xScale yScale x : ℝ) : ℝ :=
  let scaledX := x * xScale
  if scaledX ≠ 0 then yScale / scaledX else 0

/-- The generic mathjs tail of calculate2DFunction applied to the
expression 1/x: division by zero evaluates to Infinity, which the
isFinite check turns into a segment break; any finite value is clamped to
[-100, 100]. -/
noncomputable def genericRecipEval (x : ℝ) : Option ℝ :=
  if x = 0 then none else some (clamp (-100) 100 (1 / x))

/-- The Reciprocal-branch sweep at resolution 20 keeps the origin sample:
the branch substitutes y = 0 at x = 0 instead of breaking, so every one of
the 21 samples is valid and the single segment contains (0, 0). -/
theorem recipSweep_mem_origin :
    Pt.mk 0 0 ∈ create2DFunctionGeometry (fun x => some (reciprocalCalc 1 1 x)) 20 := by
  have hall : ∀ i, i ≤ 20 →
      ((graph2DPoints (fun x => some (reciprocalCalc 1 1 x)) 20) i).isSome := by
    intro i _
    simp [graph2DPoints]
  have hseg := segmentsOf_all_some _ 20 (by norm_num) hall
  unfold create2DFunctionGeometry
  rw [hseg]
  have hchoose : ∀ s : List Pt, chooseLongest [s] = s := by
    intro s
    simp [chooseLongest]
  rw [hchoose]
  apply List.mem_filterMap.mpr
  refine ⟨10, by simp, ?_⟩
  have hx : sampleX 10 20 10 = 0 := by
    simp [sampleX]
    norm_num
  simp [graph2DPoints, hx, reciprocalCalc]

/-- C2 counterexample: sweeping the special-cased Reciprocal branch at
resolution 20 over [-10, 10] yields a single segment that contains the
sample point (0, 0) - the branch substitutes y = 0 at x = 0 instead of
breaking - so the chosen polyline does contain a point with |x| below
1e-10, contrary to the claim. -/
theorem c2_counterexample :
    Pt.mk 0 0 ∈ create2DFunctionGeometry (fun x => some (reciprocalCalc 1 1 x)) 20 ∧
      |(Pt.mk 0 0).x| < 1e-10 := by
  refine ⟨recipSweep_mem_origin, ?_⟩
  simp
  norm_num

/-- C2 (amended): the assembler always returns the first segment of
maximal point count; for the expression 1/x through the generic
evaluation tail the x = 0 sample breaks the sweep at resolution 20 into
two ten-point segments, the tie resolves to the first, and every chosen
point has x at most -1 (so none within 1e-10 of 0); but through the
special-cased Reciprocal branch the x = 0 sample evaluates to 0 and the
single 21-point segment retains it. -/
theorem c2_theorem :
    (∀ (segs : List (List Pt)), segs ≠ [] →
      ∃ k : Fin segs.length, chooseLongest segs = segs.get k ∧
        (∀ s ∈ segs, s.length ≤ (segs.get k).length) ∧
        ∀ j : Fin segs.length, j.val < k.val →
          (segs.get j).length < (segs.get k).length) ∧
    (segmentsOf (graph2DPoints genericRecipEval 20) 20).length = 2 ∧
    (∀ p ∈ create2DFunctionGeometry genericRecipEval 20, p.x ≤ -1) ∧
    Pt.mk 0 0 ∈ create2DFunctionGeometry (fun x => some (reciprocalCalc 1 1 x)) 20 := by
  have hx0 : sampleX 10 20 10 = 0 := by
    simp [sampleX]
    norm_num
  have hbreak : graph2DPoints genericRecipEval 20 10 = none := by
    simp [graph2DPoints, hx0, genericRecipEval]
  have hvalid : ∀ i, i ≤ 20 → i ≠ 10 → (graph2DPoints genericRecipEval 20 i).isSome := by
    intro i hle hne
    have hxne : sampleX 10 20 i ≠ 0 := by
      simp only [sampleX]
      have h20 : (2 * (10 : ℝ) / (20 : ℕ)) = 1 := by norm_num
      rw [h20, mul_one]
      intro hcontra
      have : (i : ℝ) = 10 := by linarith
      exact hne (by exact_mod_cast this)
    simp [graph2DPoints, genericRecipEval, hxne]
  have hsegs := segmentsOf_one_break (graph2DPoints genericRecipEval 20) 20 10
    hbreak hvalid (by norm_num) (by norm_num)
  refine ⟨chooseLongest_spec, ?_, ?_, recipSweep_mem_origin⟩
  · rw [hsegs]
    rfl
  · intro p hp
    have hmem : ∀ i ∈ List.range 10, (graph2DPoints genericRecipEval 20 i).isSome := by
      intro i hi
      have := List.mem_range.mp hi
      exact hvalid i (by omega) (by omega)
    have hlen1 : ((List.range 10).filterMap (graph2DPoints genericRecipEval 20)).length
        = 10 := by
      rw [length_filterMap_of_all_some _ _ hmem, List.length_range]
    have hmem2 : ∀ i ∈ List.range' 11 10, (graph2DPoints genericRecipEval 20 i).isSome := by
      intro i hi
      have := List.mem_range'_1.mp hi
      exact hvalid i (by omega) (by omega)
    have hlen2 : ((List.range' 11 10).filterMap (graph2DPoints genericRecipEval 20)).length
        = 10 := by
      rw [length_filterMap_of_all_some _ _ hmem2]
      simp
    unfold create2DFunctionGeometry at hp
    rw [hsegs] at hp
    have hch : chooseLongest
        [(List.range 10).filterMap (graph2DPoints genericRecipEval 20),
          (List.range' 11 10).filterMap (graph2DPoints genericRecipEval 20)] =
        (List.range 10).filterMap (graph2DPoints genericRecipEval 20) := by
      simp [chooseLongest, hlen1, hlen2]
    rw [hch] at hp
    obtain ⟨i, hi, hfi⟩ := List.mem_filterMap.mp hp
    have hi10 := List.mem_range.mp hi
    have hxi : sampleX 10 20 i = -10 + i := by
      simp only [sampleX]
      norm_num
    simp only [graph2DPoints, Option.map_eq_some'] at hfi
    obtain ⟨yv, hyv, hpt⟩ := hfi
    have hpx : p.x = sampleX 10 20 i := by
      rw [← hpt]
    rw [hpx, hxi]
    have : (i : ℝ) ≤ 9 := by exact_mod_cast Nat.lt_succ_iff.mp hi10
    linarith

/-- C2 witness: the tie-break clause of the theorem applied to an explicit
two-segment list. -/
theorem c2_witness :
    ∃ k : Fin ([[Pt.mk 0 0, Pt.mk 1 1]] : List (List Pt)).length,
      chooseLongest [[Pt.mk 0 0, Pt.mk 1 1]] = [[Pt.mk 0 0, Pt.mk 1 1]].get k ∧
        (∀ s ∈ ([[Pt.mk 0 0, Pt.mk 1 1]] : List (List Pt)),
          s.length ≤ (([[Pt.mk 0 0, Pt.mk 1 1]] : List (List Pt)).get k).length) ∧
        ∀ j : Fin ([[Pt.mk 0 0, Pt.mk 1 1]] : List (List Pt)).length, j.val < k.val →
          (([[Pt.mk 0 0, Pt.mk 1 1]] : List (List Pt)).get j).length <
            (([[Pt.mk 0 0, Pt.mk 1 1]] : List (List Pt)).get k).length :=
  c2_theorem.1 [[Pt.mk 0 0, Pt.mk 1 1]] (by simp)

/-- C10: a maximal run of exactly one valid sample contributes no segment
(every collected segment has at least two points), and when no run reaches
two points the builder returns the empty polyline instead of failing. -/
theorem c10_theorem :
    (∀ (f : ℕ → Option Pt) (n : ℕ), ∀ s ∈ segmentsOf f n, 2 ≤ s.length) ∧
    (∀ (eval : ℝ → Option ℝ) (n : ℕ),
      segmentsOf (graph2DPoints eval n) n = [] → create2DFunctionGeometry eval n = []) := by
  refine ⟨fun f n => segmentsOf_min_length f n, ?_⟩
  intro eval n h
  unfold create2DFunctionGeometry
  rw [h]
  rfl

/-- C10 witness: a sweep with one break yields two-point segments, and the
always-invalid sweep yields the empty polyline. -/
theorem c10_witness :
    2 ≤ ([Pt.mk 1 1, Pt.mk 1 1] : List Pt).length ∧
    create2DFunctionGeometry (fun _ => none) 1 = [] := by
  constructor
  · have hseg : segmentsOf (fun i => if i = 2 then none else some (Pt.mk 1 1)) 4 =
        [[Pt.mk 1 1, Pt.mk 1 1], [Pt.mk 1 1, Pt.mk 1 1]] := rfl
    exact c10_theorem.1 (fun i => if i = 2 then none else some (Pt.mk 1 1)) 4
      [Pt.mk 1 1, Pt.mk 1 1] (by rw [hseg]; exact List.mem_cons_self _ _)
  · exact c10_theorem.2 (fun _ => none) 1 rfl

/-! ### Evaluation scopes (C7)

A scope is a finite name-to-value map, modelled as a function to Option.
A JS object spread {...a, ...b} lets b win on key collisions. -/

/-- JS spread {...base, ...override}: the override wins. -/
def spreadScopes (base override : String → Option ℝ) : String → Option ℝ :=
  fun nm =>
    match override nm with
    | some v => some v
    | none => base nm

/-- The base scope of calculateSurfaceZ: { x, y, a: 2, b: 2, c: 2, r: 2,
R: 3 }. -/
noncomputable def surfaceBaseScope (x y : ℝ) : String → Option ℝ :=
  fun nm =>
    if nm = "x" then some x
    else if nm = "y" then some y
    else if nm = "a" then some 2
    else if nm = "b" then some 2
    else if nm = "c" then some 2
    else if nm = "r" then some 2
    else if nm = "R" then some 3
    else none

/-- The extendedScope of calculateSurfaceZ: {...scope, ...controlValues};
the control values are spread last. -/
noncomputable def surfaceEvalScope (x y : ℝ) (controlValues : String → Option ℝ) :
    String → Option ℝ :=
  spreadScopes (surfaceBaseScope x y) controlValues

/-- The base scope of the generic tail of calculate2DFunction, binding the
swept coordinate to x, t, V and E, along with parameter defaults and
constants. -/
noncomputable def function2DBaseScope (x : ℝ) : String → Option ℝ :=
  fun nm =>
    if nm = "x" then some x
    else if nm = "a" then some 1
    else if nm = "b" then some 1
    else if nm = "c" then some 0
    else if nm = "d" then some 0
    else if nm = "k" then some 1
    else if nm = "A" then some 1
    else if nm = "B" then some 1
    else if nm = "C" then some 0
    else if nm = "D" then some 0
    else if nm = "r" then some 2
    else if nm = "t" then some x
    else if nm = "I" then some 1
    else if nm = "I_0" then some 1
    else if nm = "V" then some x
    else if nm = "V_T" then some 0.026
    else if nm = "n" then some 1
    else if nm = "f" then some |x|
    else if nm = "phi" then some 0
    else if nm = "omega" then some 1
    else if nm = "gamma" then some 0.1
    else if nm = "h" then some 6.626e-34
    else if nm = "hbar" then some 1.055e-34
    else if nm = "kB" then some 1.381e-23
    else if nm = "lambda" then some (|x| + 1)
    else if nm = "T" then some 300
    else if nm = "pi" then some Real.pi
    else if nm = "e" then some (Real.exp 1)
    else if nm = "E" then some x
    else none

/-- The extendedScope of calculate2DFunction: {...scope, ...controlValues}. -/
noncomputable def function2DEvalScope (x : ℝ) (controlValues : String → Option ℝ) :
    String → Option ℝ :=
  spreadScopes (function2DBaseScope x) controlValues

/-- The evalScope of createCustom2DCurve: {...scope, x}; the coordinate is
spread last. -/
def custom2DEvalScope (scope : String → Option ℝ) (x : ℝ) : String → Option ℝ :=
  fun nm => if nm = "x" then some x else scope nm

/-- The evalScope of createCustom3DSurface: {...scope, x, y}. -/
def custom3DEvalScope (scope : String → Option ℝ) (x y : ℝ) : String → Option ℝ :=
  fun nm => if nm = "x" then some x else if nm = "y" then some y else scope nm

/-- C7 counterexample: in calculateSurfaceZ's scope a control value named
x overrides the swept coordinate (the spread puts controlValues last), so
the value used for x is the parameter's 5, not the coordinate's 1. -/
theorem c7_counterexample :
    surfaceEvalScope 1 2 (fun nm => if nm = "x" then some 5 else none) "x" = some 5 ∧
      (5 : ℝ) ≠ 1 := by
  constructor
  · rfl
  · norm_num

/-- C7 (amended): in the custom-equation builders the coordinate is spread
after the parameter scope and always wins; but in calculateSurfaceZ and
calculate2DFunction the control values are spread after the scope that
holds the coordinates, so on a name collision the parameter wins and the
coordinate is used only when no control value binds the name. -/
theorem c7_theorem :
    (∀ (scope : String → Option ℝ) (x : ℝ), custom2DEvalScope scope x "x" = some x) ∧
    (∀ (scope : String → Option ℝ) (x y : ℝ),
      custom3DEvalScope scope x y "x" = some x ∧
        custom3DEvalScope scope x y "y" = some y) ∧
    (∀ (x y v : ℝ) (cv : String → Option ℝ) (nm : String), cv nm = some v →
      surfaceEvalScope x y cv nm = some v) ∧
    (∀ (x y : ℝ) (cv : String → Option ℝ), cv "x" = none →
      surfaceEvalScope x y cv "x" = some x) ∧
    (∀ (x v : ℝ) (cv : String → Option ℝ) (nm : String), cv nm = some v →
      function2DEvalScope x cv nm = some v) ∧
    (∀ (x : ℝ) (cv : String → Option ℝ), cv "x" = none →
      function2DEvalScope x cv "x" = some x) := by
  refine ⟨fun scope x => rfl, fun scope x y => ⟨rfl, rfl⟩, ?_, ?_, ?_, ?_⟩
  · intro x y v cv nm h
    simp [surfaceEvalScope, spreadScopes, h]
  · intro x y cv h
    simp [surfaceEvalScope, spreadScopes, h, surfaceBaseScope]
  · intro x v cv nm h
    simp [function2DEvalScope, spreadScopes, h]
  · intro x cv h
    simp [function2DEvalScope, spreadScopes, h, function2DBaseScope]

/-- C7 witness: the scope clauses applied at explicit coordinates and an
explicit control map binding x to 5. -/
theorem c7_witness :
    custom2DEvalScope (fun _ => none) 3 "x" = some 3 ∧
    surfaceEvalScope 1 2 (fun nm => if nm = "x" then some 5 else none) "x" = some 5 ∧
    surfaceEvalScope 1 2 (fun _ => none) "x" = some 1 ∧
    function2DEvalScope 7 (fun _ => none) "x" = some 7 :=
  ⟨c7_theorem.1 (fun _ => none) 3,
    c7_theorem.2.2.1 1 2 5 (fun nm => if nm = "x" then some 5 else none) "x" (by simp),
    c7_theorem.2.2.2.1 1 2 (fun _ => none) rfl,
    c7_theorem.2.2.2.2.2 7 (fun _ => none) rfl⟩

/-- A single collected segment is returned unchanged by the assembler. -/
theorem chooseLongest_singleton {β : Type} (s : List β) :
    chooseLongest [s] = s := by
  simp [chooseLongest]

/-- With no trouble signature in the text, the domain validator accepts
every coordinate. -/
theorem validateDomain_true_of_no_signatures (e : String) (x : ℝ) (y : Option ℝ)
    (h1 : strIncludes (jsToLower e) "log" = false)
    (h2 : strIncludes (jsToLower e) "ln" = false)
    (h3 : strIncludes (jsToLower e) "sqrt" = false)
    (h4 : strIncludes (jsToLower e) "1/x" = false)
    (h5 : strIncludes (jsToLower e) "tan" = false) :
    validateDomain e x y = true := by
  simp [validateDomain, h1, h2, h3, h4, h5]

/-! ### Clamping of finite evaluation results (C4) -/

/-- The generic tail of calculateSurfaceZ: a NaN/Infinity or thrown
evaluation contributes 0; a finite result is clamped to [-10, 10] and
returned as the vertex height. -/
noncomputable def surfaceZResult (result : Option ℝ) : ℝ :=
  match result with
  | none => 0
  | some v => clamp (-10) 10 v

/-- The generic tail of calculate2DFunction: a NaN/Infinity or thrown
evaluation yields NaN (a segment break); a finite result is clamped to
[-100, 100] and kept as a valid sample. -/
noncomputable def function2DResult (result : Option ℝ) : Option ℝ :=
  match result with
  | none => none
  | some v => some (clamp (-100) 100 v)

/-- One sample of createCustom2DCurve (resolution fixed at 200, range 10
in the source): domain-validate the textual equation at x, evaluate, and
keep a finite result clamped to [-50, 50]. -/
noncomputable def custom2DPoint (equation : String) (ev : ℝ → Option ℝ) (i : ℕ) :
    Option Pt :=
  let x := sampleX 10 200 i
  if validateDomain equation x none then
    match ev x with
    | some yv => some (Pt.mk x (clamp (-50) 50 yv))
    | none => none
  else none

/-- createCustom2DCurve: sweep 201 samples, segment, keep the longest
segment. -/
noncomputable def createCustom2DCurve (equation : String) (ev : ℝ → Option ℝ) :
    List Pt :=
  chooseLongest (segmentsOf (custom2DPoint equation ev) 200)

/-- C4 counterexample: the custom 2D curve for the constant expression 80
stores every sample with y = 50: the custom path clamps to [-50, 50], not
to the claimed [-100, 100], under which the finite value 80 would have
been kept unchanged. -/
theorem c4_counterexample :
    Pt.mk (-10) 50 ∈ createCustom2DCurve "80" (fun _ => some 80) ∧
      clamp (-100) 100 80 = 80 ∧ (50 : ℝ) ≠ 80 := by
  have hdom : ∀ x : ℝ, validateDomain "80" x none = true := fun x =>
    validateDomain_true_of_no_signatures "80" x none (by decide) (by decide) (by decide)
      (by decide) (by decide)
  refine ⟨?_, ?_, by norm_num⟩
  · have hall : ∀ i, i ≤ 200 → (custom2DPoint "80" (fun _ => some 80) i).isSome := by
      intro i _
      simp [custom2DPoint, hdom]
    have hseg := segmentsOf_all_some _ 200 (by norm_num) hall
    unfold createCustom2DCurve
    rw [hseg, chooseLongest_singleton]
    apply List.mem_filterMap.mpr
    refine ⟨0, by simp, ?_⟩
    have hx : sampleX 10 200 0 = -10 := by
      simp [sampleX]
    have hcl : clamp (-50) 50 (80 : ℝ) = 50 := by
      unfold clamp
      rw [min_eq_left (by norm_num), max_eq_right (by norm_num)]
    simp [custom2DPoint, hdom, hx, hcl]
  · unfold clamp
    rw [min_eq_right (by norm_num), max_eq_right (by norm_num)]

/-- C4 (amended): a finite result is clamped before entering the geometry
and the clamp is a diagnostic, never a fault: the generic surface tail
clamps to [-10, 10], the generic 2D tail clamps to [-100, 100] and keeps
the sample valid, but the custom-equation curve path clamps to [-50, 50];
within the clamp range every value passes through unchanged. -/
theorem c4_theorem :
    (∀ lo hi v : ℝ, lo ≤ hi →
      lo ≤ clamp lo hi v ∧ clamp lo hi v ≤ hi ∧
        ((lo ≤ v ∧ v ≤ hi) → clamp lo hi v = v)) ∧
    (∀ v : ℝ, surfaceZResult (some v) = clamp (-10) 10 v) ∧
    (∀ v : ℝ, function2DResult (some v) = some (clamp (-100) 100 v)) ∧
    (∀ v : ℝ, (function2DResult (some v)).isSome) ∧
    (∀ (equation : String) (ev : ℝ → Option ℝ) (i : ℕ) (yv : ℝ),
      validateDomain equation (sampleX 10 200 i) none = true →
      ev (sampleX 10 200 i) = some yv →
      custom2DPoint equation ev i =
        some (Pt.mk (sampleX 10 200 i) (clamp (-50) 50 yv))) := by
  refine ⟨?_, fun v => rfl, fun v => rfl, fun v => rfl, ?_⟩
  · intro lo hi v h
    unfold clamp
    refine ⟨le_max_left _ _, max_le h (min_le_left _ _), ?_⟩
    rintro ⟨h1, h2⟩
    rw [min_eq_right h2, max_eq_right h1]
  · intro equation ev i yv hdom hev
    simp [custom2DPoint, hdom, hev]

/-- C4 witness: the clamp clauses applied at the finite value 80 through
the custom 2D path. -/
theorem c4_witness :
    ((-50 : ℝ) ≤ clamp (-50) 50 80 ∧ clamp (-50) 50 80 ≤ 50 ∧
      (((-50 : ℝ) ≤ 80 ∧ (80 : ℝ) ≤ 50) → clamp (-50) 50 80 = 80)) ∧
    custom2DPoint "80" (fun _ => some 80) 0 =
      some (Pt.mk (sampleX 10 200 0) (clamp (-50) 50 80)) :=
  ⟨c4_theorem.1 (-50) 50 80 (by norm_num),
    c4_theorem.2.2.2.2 "80" (fun _ => some 80) 0 80
      (validateDomain_true_of_no_signatures "80" (sampleX 10 200 0) none (by decide)
        (by decide) (by decide) (by decide) (by decide)) rfl⟩

/-! ### The custom 3D surface grid (createCustom3DSurface, C6) -/

theorem sum_map_const {α : Type} (l : List α) (m : ℕ) :
    (l.map (fun _ => m)).sum = l.length * m := by
  induction l with
  | nil => simp
  | cons a l ih => simp [ih, Nat.succ_mul, Nat.add_comm]

/-- One vertex of createCustom3DSurface: a domain-invalid cell evaluates
to height 0, a thrown evaluation is caught and contributes height 0, and
a finite value is clamped to [-50, 50]; the vertex is stored as
(x, height, y) since three.js is y-up. The source fixes the resolution at
50; it is kept as a parameter here to state the grid law at any
resolution. -/
noncomputable def custom3DVertex (d : ℝ → ℝ → Bool) (ev : ℝ → ℝ → Option ℝ)
    (res i j : ℕ) : V3 :=
  let x := sampleX 10 res i
  let y := sampleX 10 res j
  match (if d x y then ev x y else some 0) with
  | some z => V3.mk x (clamp (-50) 50 z) y
  | none => V3.mk x 0 y

/-- The full vertex list of createCustom3DSurface: outer loop over i,
inner loop over j, one vertex pushed per cell, never skipped. -/
noncomputable def custom3DVertices (d : ℝ → ℝ → Bool) (ev : ℝ → ℝ → Option ℝ)
    (res : ℕ) : List V3 :=
  ((List.range (res + 1)).map
    (fun i => (List.range (res + 1)).map (fun j => custom3DVertex d ev res i j))).flatten

/-- The mathjs evaluation of the expression x^2 - y^2 (total and finite). -/
noncomputable def saddleEval : ℝ → ℝ → Option ℝ := fun x y => some (x ^ 2 - y ^ 2)

/-- The domain check createCustom3DSurface performs for x^2 - y^2. -/
noncomputable def saddleDomain : ℝ → ℝ → Bool := fun x y =>
  validateDomain "x^2 - y^2" x (some y)

/-- What one calculateSurfaceZ call looks like to createSurfaceGeometry:
a finite number, a non-finite number (NaN or Infinity) returned normally
by a special-cased branch, or a thrown exception. -/
inductive EvalOutcome where
  | value (v : ℝ)
  | nonFinite
  | thrown

/-- The z createSurfaceGeometry writes for one grid position: only a
thrown evaluation is replaced by 0 (the try/catch); a returned non-finite
value goes into the position buffer unreplaced (modelled as none) - the
fill loop performs no isNaN/isFinite check; a finite value is stored as
is. -/
def storedSurfaceZ (outcome : EvalOutcome) : Option ℝ :=
  match outcome with
  | .value v => some v
  | .nonFinite => none
  | .thrown => some 0

/-- The fill loop of createSurfaceGeometry over the PlaneGeometry
positions: every vertex has its z overwritten in place and no vertex is
dropped. -/
noncomputable def surfaceZFill (calcZ : ℝ → ℝ → EvalOutcome)
    (grid : List (ℝ × ℝ)) : List (ℝ × ℝ × Option ℝ) :=
  grid.map (fun xy => (xy.1, xy.2, storedSurfaceZ (calcZ xy.1 xy.2)))

/-- The Helicoid branch of calculateSurfaceZ: inside the radius range the
atan2 angle is rescaled by vRange over 2 pi and multiplied by the pitch c;
outside it the branch returns NaN - a normally returned non-finite value,
not an exception (defaults c = 1, uRange = 3, vRange = 2 pi). -/
noncomputable def helicoidZ (c uRange vRange x y : ℝ) : EvalOutcome :=
  let r := Real.sqrt (x * x + y * y)
  let v := Complex.arg ⟨x, y⟩ * (vRange / (2 * Real.pi))
  if r ≤ uRange then .value (c * v) else .nonFinite

/-- C6 counterexample: the grid point (5, 0) of the catalog Helicoid build
(the PlaneGeometry spans [-5, 5] in both directions) lies outside the
default radius range 3, the branch returns NaN, and createSurfaceGeometry
stores that vertex with a non-finite z unreplaced - not with the value 0
the claim asserts for non-finite samples. -/
theorem c6_counterexample :
    surfaceZFill (helicoidZ 1 3 (2 * Real.pi)) [(5, 0)] =
        [((5 : ℝ), (0 : ℝ), (none : Option ℝ))] ∧
      (none : Option ℝ) ≠ some 0 := by
  constructor
  · have hr : Real.sqrt ((5 : ℝ) * 5 + 0 * 0) = 5 := by
      rw [show (5 : ℝ) * 5 + 0 * 0 = 5 ^ 2 by norm_num]
      exact Real.sqrt_sq (by norm_num)
    have hguard : ¬ Real.sqrt ((5 : ℝ) * 5 + 0 * 0) ≤ 3 := by
      rw [hr]
      norm_num
    simp [surfaceZFill, helicoidZ, storedSurfaceZ, hguard]
    norm_num
  · simp

/-- C6 (amended): every 3D surface build preserves the full grid
topology - the custom builder pushes exactly (resolution+1) squared
vertices for every evaluator and the catalog fill loop overwrites z in
place without dropping vertices; a thrown evaluation contributes a vertex
of value 0 on both paths, and on the custom path a non-finite or
domain-invalid sample also contributes 0; but on the catalog path a
returned non-finite value (as the Helicoid branch produces outside its
radius range) is stored unreplaced rather than as 0. The input x^2 - y^2
is classified Surface3D and its custom build at resolution 50 has 2601
vertices with height 0 at the grid center (0, 0). -/
theorem c6_theorem :
    (∀ (d : ℝ → ℝ → Bool) (ev : ℝ → ℝ → Option ℝ) (res : ℕ),
      (custom3DVertices d ev res).length = (res + 1) ^ 2) ∧
    (∀ (calcZ : ℝ → ℝ → EvalOutcome) (grid : List (ℝ × ℝ)),
      (surfaceZFill calcZ grid).length = grid.length) ∧
    (∀ (d : ℝ → ℝ → Bool) (ev : ℝ → ℝ → Option ℝ) (res i j : ℕ),
      d (sampleX 10 res i) (sampleX 10 res j) = true →
      ev (sampleX 10 res i) (sampleX 10 res j) = none →
      custom3DVertex d ev res i j =
        V3.mk (sampleX 10 res i) 0 (sampleX 10 res j)) ∧
    (∀ (d : ℝ → ℝ → Bool) (ev : ℝ → ℝ → Option ℝ) (res i j : ℕ),
      d (sampleX 10 res i) (sampleX 10 res j) = false →
      custom3DVertex d ev res i j =
        V3.mk (sampleX 10 res i) 0 (sampleX 10 res j)) ∧
    storedSurfaceZ EvalOutcome.thrown = some 0 ∧
    (∀ v : ℝ, storedSurfaceZ (EvalOutcome.value v) = some v) ∧
    storedSurfaceZ EvalOutcome.nonFinite = none ∧
    classify "x^2 - y^2" astSaddle = GraphKind.threeD ∧
    (custom3DVertices saddleDomain saddleEval 50).length = 2601 ∧
    custom3DVertex saddleDomain saddleEval 50 25 25 = V3.mk 0 0 0 := by
  have hcl0 : clamp (-50) 50 (0 : ℝ) = 0 := by
    unfold clamp
    rw [min_eq_right (by norm_num), max_eq_right (by norm_num)]
  have hcount : ∀ (d : ℝ → ℝ → Bool) (ev : ℝ → ℝ → Option ℝ) (res : ℕ),
      (custom3DVertices d ev res).length = (res + 1) ^ 2 := by
    intro d ev res
    unfold custom3DVertices
    rw [List.length_flatten, List.map_map]
    have : (List.length ∘ fun i =>
        (List.range (res + 1)).map (fun j => custom3DVertex d ev res i j)) =
        fun _ => res + 1 := by
      funext i
      simp
    rw [this, sum_map_const, List.length_range, sq]
  refine ⟨hcount, ?_, ?_, ?_, rfl, fun v => rfl, rfl, by decide, ?_, ?_⟩
  · intro calcZ grid
    simp [surfaceZFill]
  · intro d ev res i j hd hev
    simp [custom3DVertex, hd, hev]
  · intro d ev res i j hd
    simp [custom3DVertex, hd, hcl0]
  · rw [hcount]; norm_num
  · have hx : sampleX 10 50 25 = 0 := by
      simp only [sampleX]
      norm_num
    have hdom : saddleDomain 0 0 = true :=
      validateDomain_true_of_no_signatures "x^2 - y^2" 0 (some 0) (by decide) (by decide)
        (by decide) (by decide) (by decide)
    simp only [custom3DVertex, hx, hdom, saddleEval, if_true]
    norm_num [hcl0]

/-- C6 witness: the fault clause evaluated at an explicit always-faulting
evaluator on the corner cell. -/
theorem c6_witness :
    custom3DVertex (fun _ _ => true) (fun _ _ => none) 50 0 0 =
      V3.mk (sampleX 10 50 0) 0 (sampleX 10 50 0) :=
  c6_theorem.2.2.1 (fun _ _ => true) (fun _ _ => none) 50 0 0 rfl rfl

/-! ### Named-surface sphere solver (C9) -/

/-- JS truthy default: v || d, where 0 (falsy) also falls back to d. -/
noncomputable def jsOrDefault (v : Option ℝ) (d : ℝ) : ℝ :=
  match v with
  | some w => if w = 0 then d else w
  | none => d

/-- The Sphere branch of calculateSurfaceZ: z = sqrt(r^2 - x^2 - y^2) on
the disk, 0 outside it. -/
noncomputable def sphereZ (r x y : ℝ) : ℝ :=
  let term := r * r - x * x - y * y
  if 0 ≤ term then Real.sqrt term else 0

/-- The radius createDefaultGeometry passes for the Sphere:
controlValues.radius || 3. -/
noncomputable def sphereRadius (cv : String → Option ℝ) : ℝ :=
  jsOrDefault (cv "radius") 3

/-- C9: with the default control values the sphere radius is 3, and on the
solver's documented domain (the disk of radius 3) every solved vertex
satisfies x^2 + y^2 + z^2 = 9, in particular within the 1e-6 tolerance. -/
theorem c9_theorem :
    sphereRadius (fun _ => none) = 3 ∧
    ∀ x y : ℝ, x ^ 2 + y ^ 2 ≤ 9 →
      x ^ 2 + y ^ 2 + sphereZ 3 x y ^ 2 = 9 ∧
        |x ^ 2 + y ^ 2 + sphereZ 3 x y ^ 2 - 9| ≤ 1e-6 := by
  refine ⟨rfl, ?_⟩
  intro x y h
  have hterm : 0 ≤ 3 * 3 - x * x - y * y := by nlinarith [h]
  have hz : sphereZ 3 x y = Real.sqrt (3 * 3 - x * x - y * y) := by
    simp [sphereZ, hterm]
  have hsq : Real.sqrt (3 * 3 - x * x - y * y) ^ 2 = 3 * 3 - x * x - y * y :=
    Real.sq_sqrt hterm
  have h1 : x ^ 2 + y ^ 2 + sphereZ 3 x y ^ 2 = 9 := by
    rw [hz, hsq]
    ring
  exact ⟨h1, by rw [h1]; norm_num⟩

/-- C9 witness: the solver at the explicit surface point (1, 2). -/
theorem c9_witness :
    (1 : ℝ) ^ 2 + 2 ^ 2 ≤ 9 ∧
      (1 : ℝ) ^ 2 + 2 ^ 2 + sphereZ 3 1 2 ^ 2 = 9 :=
  ⟨by norm_num, (c9_theorem.2 1 2 (by norm_num)).1⟩

/-! ### The Tangent Function branch (C3) -/

/-- The Tangent Function branch of calculate2DFunction: scaledX =
frequency * x + phase; near an asymptote (|cos| below the 0.01 tolerance)
the branch returns NaN, and a magnitude above 100 is also turned into NaN
to break the segment; otherwise the tangent value is the sample. -/
noncomputable def tangentCalc (amplitude frequency phase x : ℝ) : Option ℝ :=
  let scaledX := frequency * x + phase
  if |Real.cos scaledX| < 0.01 then none
  else
    let tanValue := amplitude * Real.tan scaledX
    if 100 < |tanValue| then none
    else some tanValue

/-- The 2D sweep of the Tangent branch at the default controls
(amplitude 1, frequency 1, phase 0). -/
noncomputable def tangentPoints (resolution : ℕ) : ℕ → Option Pt :=
  graph2DPoints (fun x => tangentCalc 1 1 0 x) resolution

/-- Away from every asymptote by at least 0.0106, the cosine stays at
least 0.0105 in absolute value. -/
theorem abs_cos_lower_bound (x : ℝ) (k : ℤ)
    (h1 : (0.0106 : ℝ) ≤ |x - (Real.pi / 2 + k * Real.pi)|)
    (h2 : |x - (Real.pi / 2 + k * Real.pi)| ≤ Real.pi / 2) :
    (0.0105 : ℝ) ≤ |Real.cos x| := by
  set t := x - (Real.pi / 2 + k * Real.pi) with ht
  have hx : x = (t + Real.pi / 2) + k * Real.pi := by
    rw [ht]; ring
  rw [hx, abs_cos_add_int_mul_pi, Real.cos_add_pi_div_two, abs_neg]
  have hpi : 0 < Real.pi := Real.pi_pos
  have htle := abs_le.mp h2
  have hsin : |Real.sin t| = Real.sin |t| := by
    rcases abs_cases t with ⟨he, hsign⟩ | ⟨he, hsign⟩
    · rw [he]
      exact abs_of_nonneg
        (Real.sin_nonneg_of_nonneg_of_le_pi hsign (by linarith [htle.2]))
    · rw [he, Real.sin_neg]
      have hnn : 0 ≤ Real.sin (-t) :=
        Real.sin_nonneg_of_nonneg_of_le_pi (by linarith) (by linarith [htle.1])
      rw [Real.sin_neg] at hnn
      rw [abs_of_nonpos (by linarith)]
  rw [hsin]
  have hmono : Real.sin 0.0106 ≤ Real.sin |t| := by
    apply Real.sin_le_sin_of_le_of_le_pi_div_two (by norm_num; linarith) h2
    exact h1
  have hcube : (0.0106 : ℝ) - 0.0106 ^ 3 / 4 < Real.sin 0.0106 :=
    Real.sin_gt_sub_cube (by norm_num) (by norm_num)
  calc (0.0105 : ℝ) ≤ 0.0106 - 0.0106 ^ 3 / 4 := by norm_num
    _ ≤ Real.sin 0.0106 := le_of_lt hcube
    _ ≤ Real.sin |t| := hmono

/-- With the cosine at least 0.0105 in absolute value the tangent stays
within 100 in absolute value. -/
theorem abs_tan_le_of_abs_cos_ge (x : ℝ) (h : (0.0105 : ℝ) ≤ |Real.cos x|) :
    |Real.tan x| ≤ 100 := by
  rw [Real.tan_eq_sin_div_cos, abs_div]
  have hpos : (0 : ℝ) < |Real.cos x| := by linarith
  rw [div_le_iff₀ hpos]
  calc |Real.sin x| ≤ 1 := Real.abs_sin_le_one x
    _ ≤ 100 * 0.0105 := by norm_num
    _ ≤ 100 * |Real.cos x| := by linarith

/-- A sample away from the asymptote tolerance is a valid tangent sample. -/
theorem tangentCalc_some (x : ℝ) (h : (0.0105 : ℝ) ≤ |Real.cos x|) :
    tangentCalc 1 1 0 x = some (1 * Real.tan (1 * x + 0)) := by
  have hx : (1 : ℝ) * x + 0 = x := by ring
  have htan := abs_tan_le_of_abs_cos_ge x h
  unfold tangentCalc
  rw [hx]
  rw [if_neg (by push_neg; linarith), if_neg (by push_neg; rw [abs_mul]; simp; linarith)]

set_option maxHeartbeats 4000000 in
/-- Every sample of the resolution 50 tangent sweep stays at least
0.0106 away from every asymptote, so its cosine is at least 0.0105 in
absolute value (minimum at the samples x = 1.6 and x = -1.6). -/
theorem tangent_samples_cos_bound :
    ∀ i, i ≤ 50 → (0.0105 : ℝ) ≤ |Real.cos (sampleX 10 50 i)| := by
  intro i hi
  interval_cases i
  · have hx : sampleX 10 50 0 = (-10.0) := by norm_num [sampleX]
    rw [hx]
    refine abs_cos_lower_bound (-10.0) (-4) (le_abs.mpr (Or.inl (by
      push_cast; linarith [Real.pi_gt_d6, Real.pi_lt_d6]))) (abs_le.mpr ⟨by
      push_cast; linarith [Real.pi_gt_d6, Real.pi_lt_d6], by
      push_cast; linarith [Real.pi_gt_d6, Real.pi_lt_d6]⟩)
  · have hx : sampleX 10 50 1 = (-9.6) := by norm_num [sampleX]
    rw [hx]
    refine abs_cos_lower_bound (-9.6) (-4) (le_abs.mpr (Or.inl (by
      push_cast; linarith [Real.pi_gt_d6, Real.pi_lt_d6]))) (abs_le.mpr ⟨by
      push_cast; linarith [Real.pi_gt_d6, Real.pi_lt_d6], by
      push_cast; linarith [Real.pi_gt_d6, Real.pi_lt_d6]⟩)
  · have hx : sampleX 10 50 2 = (-9.2) := by norm_num [sampleX]
    rw [hx]
    refine abs_cos_lower_bound (-9.2) (-3) (le_abs.mpr (Or.inr (by
      push_cast; linarith [Real.pi_gt_d6, Real.pi_lt_d6]))) (abs_le.mpr ⟨by
      push_cast; linarith [Real.pi_gt_d6, Real.pi_lt_d6], by
      push_cast; linarith [Real.pi_gt_d6, Real.pi_lt_d6]⟩)
  · have hx : sampleX 10 50 3 = (-8.8) := by norm_num [sampleX]
    rw [hx]
    refine abs_cos_lower_bound (-8.8) (-3) (le_abs.mpr (Or.inr (by
      push_cast; linarith [Real.pi_gt_d6, Real.pi_lt_d6]))) (abs_le.mpr ⟨by
      push_cast; linarith [Real.pi_gt_d6, Real.pi_lt_d6], by
      push_cast; linarith [Real.pi_gt_d6, Real.pi_lt_d6]⟩)
  · have hx : sampleX 10 50 4 = (-8.4) := by norm_num [sampleX]
    rw [hx]
    refine abs_cos_lower_bound (-8.4) (-3) (le_abs.mpr (Or.inr (by
      push_cast; linarith [Real.pi_gt_d6, Real.pi_lt_d6]))) (abs_le.mpr ⟨by
      push_cast; linarith [Real.pi_gt_d6, Real.pi_lt_d6], by
      push_cast; linarith [Real.pi_gt_d6, Real.pi_lt_d6]⟩)
  · have hx : sampleX 10 50 5 = (-8.0) := by norm_num [sampleX]
    rw [hx]
    refine abs_cos_lower_bound (-8.0) (-3) (le_abs.mpr (Or.inr (by
      push_cast; linarith [Real.pi_gt_d6, Real.pi_lt_d6]))) (abs_le.mpr ⟨by
      push_cast; linarith [Real.pi_gt_d6, Real.pi_lt_d6], by
      push_cast; linarith [Real.pi_gt_d6, Real.pi_lt_d6]⟩)
  · have hx : sampleX 10 50 6 = (-7.6) := by norm_num [sampleX]
    rw [hx]
    refine abs_cos_lower_bound (-7.6) (-3) (le_abs.mpr (Or.inl (by
      push_cast; linarith [Real.pi_gt_d6, Real.pi_lt_d6]))) (abs_le.mpr ⟨by
      push_cast; linarith [Real.pi_gt_d6, Real.pi_lt_d6], by
      push_cast; linarith [Real.pi_gt_d6, Real.pi_lt_d6]⟩)
  · have hx : sampleX 10 50 7 = (-7.2) := by norm_num [sampleX]
    rw [hx]
    refine abs_cos_lower_bound (-7.2) (-3) (le_abs.mpr (Or.inl (by
      push_cast; linarith [Real.pi_gt_d6, Real.pi_lt_d6]))) (abs_le.mpr ⟨by
      push_cast; linarith [Real.pi_gt_d6, Real.pi_lt_d6], by
      push_cast; linarith [Real.pi_gt_d6, Real.pi_lt_d6]⟩)
  · have hx : sampleX 10 50 8 = (-6.8) := by norm_num [sampleX]
    rw [hx]
    refine abs_cos_lower_bound (-6.8) (-3) (le_abs.mpr (Or.inl (by
      push_cast; linarith [Real.pi_gt_d6, Real.pi_lt_d6]))) (abs_le.mpr ⟨by
      push_cast; linarith [Real.pi_gt_d6, Real.pi_lt_d6], by
      push_cast; linarith [Real.pi_gt_d6, Real.pi_lt_d6]⟩)
  · have hx : sampleX 10 50 9 = (-6.4) := by norm_num [sampleX]
    rw [hx]
    refine abs_cos_lower_bound (-6.4) (-3) (le_abs.mpr (Or.inl (by
      push_cast; linarith [Real.pi_gt_d6, Real.pi_lt_d6]))) (abs_le.mpr ⟨by
      push_cast; linarith [Real.pi_gt_d6, Real.pi_lt_d6], by
      push_cast; linarith [Real.pi_gt_d6, Real.pi_lt_d6]⟩)
  · have hx : sampleX 10 50 10 = (-6.0) := by norm_num [sampleX]
    rw [hx]
    refine abs_cos_lower_bound (-6.0) (-2) (le_abs.mpr (Or.inr (by
      push_cast; linarith [Real.pi_gt_d6, Real.pi_lt_d6]))) (abs_le.mpr ⟨by
      push_cast; linarith [Real.pi_gt_d6, Real.pi_lt_d6], by
      push_cast; linarith [Real.pi_gt_d6, Real.pi_lt_d6]⟩)
  · have hx : sampleX 10 50 11 = (-5.6) := by norm_num [sampleX]
    rw [hx]
    refine abs_cos_lower_bound (-5.6) (-2) (le_abs.mpr (Or.inr (by
      push_cast; linarith [Real.pi_gt_d6, Real.pi_lt_d6]))) (abs_le.mpr ⟨by
      push_cast; linarith [Real.pi_gt_d6, Real.pi_lt_d6], by
      push_cast; linarith [Real.pi_gt_d6, Real.pi_lt_d6]⟩)
  · have hx : sampleX 10 50 12 = (-5.2) := by norm_num [sampleX]
    rw [hx]
    refine abs_cos_lower_bound (-5.2) (-2) (le_abs.mpr (Or.inr (by
      push_cast; linarith [Real.pi_gt_d6, Real.pi_lt_d6]))) (abs_le.mpr ⟨by
      push_cast; linarith [Real.pi_gt_d6, Real.pi_lt_d6], by
      push_cast; linarith [Real.pi_gt_d6, Real.pi_lt_d6]⟩)
  · have hx : sampleX 10 50 13 = (-4.8) := by norm_num [sampleX]
    rw [hx]
    refine abs_cos_lower_bound (-4.8) (-2) (le_abs.mpr (Or.inr (by
      push_cast; linarith [Real.pi_gt_d6, Real.pi_lt_d6]))) (abs_le.mpr ⟨by
      push_cast; linarith [Real.pi_gt_d6, Real.pi_lt_d6], by
      push_cast; linarith [Real.pi_gt_d6, Real.pi_lt_d6]⟩)
  · have hx : sampleX 10 50 14 = (-4.4) := by norm_num [sampleX]
    rw [hx]
    refine abs_cos_lower_bound (-4.4) (-2) (le_abs.mpr (Or.inl (by
      push_cast; linarith [Real.pi_gt_d6, Real.pi_lt_d6]))) (abs_le.mpr ⟨by
      push_cast; linarith [Real.pi_gt_d6, Real.pi_lt_d6], by
      push_cast; linarith [Real.pi_gt_d6, Real.pi_lt_d6]⟩)
  · have hx : sampleX 10 50 15 = (-4.0) := by norm_num [sampleX]
    rw [hx]
    refine abs_cos_lower_bound (-4.0) (-2) (le_abs.mpr (Or.inl (by
      push_cast; linarith [Real.pi_gt_d6, Real.pi_lt_d6]))) (abs_le.mpr ⟨by
      push_cast; linarith [Real.pi_gt_d6, Real.pi_lt_d6], by
      push_cast; linarith [Real.pi_gt_d6, Real.pi_lt_d6]⟩)
  · have hx : sampleX 10 50 16 = (-3.6) := by norm_num [sampleX]
    rw [hx]
    refine abs_cos_lower_bound (-3.6) (-2) (le_abs.mpr (Or.inl (by
      push_cast; linarith [Real.pi_gt_d6, Real.pi_lt_d6]))) (abs_le.mpr ⟨by
      push_cast; linarith [Real.pi_gt_d6, Real.pi_lt_d6], by
      push_cast; linarith [Real.pi_gt_d6, Real.pi_lt_d6]⟩)
  · have hx : sampleX 10 50 17 = (-3.2) := by norm_num [sampleX]
    rw [hx]
    refine abs_cos_lower_bound (-3.2) (-2) (le_abs.mpr (Or.inl (by
      push_cast; linarith [Real.pi_gt_d6, Real.pi_lt_d6]))) (abs_le.mpr ⟨by
      push_cast; linarith [Real.pi_gt_d6, Real.pi_lt_d6], by
      push_cast; linarith [Real.pi_gt_d6, Real.pi_lt_d6]⟩)
  · have hx : sampleX 10 50 18 = (-2.8) := by norm_num [sampleX]
    rw [hx]
    refine abs_cos_lower_bound (-2.8) (-1) (le_abs.mpr (Or.inr (by
      push_cast; linarith [Real.pi_gt_d6, Real.pi_lt_d6]))) (abs_le.mpr ⟨by
      push_cast; linarith [Real.pi_gt_d6, Real.pi_lt_d6], by
      push_cast; linarith [Real.pi_gt_d6, Real.pi_lt_d6]⟩)
  · have hx : sampleX 10 50 19 = (-2.4) := by norm_num [sampleX]
    rw [hx]
    refine abs_cos_lower_bound (-2.4) (-1) (le_abs.mpr (Or.inr (by
      push_cast; linarith [Real.pi_gt_d6, Real.pi_lt_d6]))) (abs_le.mpr ⟨by
      push_cast; linarith [Real.pi_gt_d6, Real.pi_lt_d6], by
      push_cast; linarith [Real.pi_gt_d6, Real.pi_lt_d6]⟩)
  · have hx : sampleX 10 50 20 = (-2.0) := by norm_num [sampleX]
    rw [hx]
    refine abs_cos_lower_bound (-2.0) (-1) (le_abs.mpr (Or.inr (by
      push_cast; linarith [Real.pi_gt_d6, Real.pi_lt_d6]))) (abs_le.mpr ⟨by
      push_cast; linarith [Real.pi_gt_d6, Real.pi_lt_d6], by
      push_cast; linarith [Real.pi_gt_d6, Real.pi_lt_d6]⟩)
  · have hx : sampleX 10 50 21 = (-1.6) := by norm_num [sampleX]
    rw [hx]
    refine abs_cos_lower_bound (-1.6) (-1) (le_abs.mpr (Or.inr (by
      push_cast; linarith [Real.pi_gt_d6, Real.pi_lt_d6]))) (abs_le.mpr ⟨by
      push_cast; linarith [Real.pi_gt_d6, Real.pi_lt_d6], by
      push_cast; linarith [Real.pi_gt_d6, Real.pi_lt_d6]⟩)
  · have hx : sampleX 10 50 22 = (-1.2) := by norm_num [sampleX]
    rw [hx]
    refine abs_cos_lower_bound (-1.2) (-1) (le_abs.mpr (Or.inl (by
      push_cast; linarith [Real.pi_gt_d6, Real.pi_lt_d6]))) (abs_le.mpr ⟨by
      push_cast; linarith [Real.pi_gt_d6, Real.pi_lt_d6], by
      push_cast; linarith [Real.pi_gt_d6, Real.pi_lt_d6]⟩)
  · have hx : sampleX 10 50 23 = (-0.8) := by norm_num [sampleX]
    rw [hx]
    refine abs_cos_lower_bound (-0.8) (-1) (le_abs.mpr (Or.inl (by
      push_cast; linarith [Real.pi_gt_d6, Real.pi_lt_d6]))) (abs_le.mpr ⟨by
      push_cast; linarith [Real.pi_gt_d6, Real.pi_lt_d6], by
      push_cast; linarith [Real.pi_gt_d6, Real.pi_lt_d6]⟩)
  · have hx : sampleX 10 50 24 = (-0.4) := by norm_num [sampleX]
    rw [hx]
    refine abs_cos_lower_bound (-0.4) (-1) (le_abs.mpr (Or.inl (by
      push_cast; linarith [Real.pi_gt_d6, Real.pi_lt_d6]))) (abs_le.mpr ⟨by
      push_cast; linarith [Real.pi_gt_d6, Real.pi_lt_d6], by
      push_cast; linarith [Real.pi_gt_d6, Real.pi_lt_d6]⟩)
  · have hx : sampleX 10 50 25 = 0.0 := by norm_num [sampleX]
    rw [hx]
    refine abs_cos_lower_bound 0.0 (-1) (le_abs.mpr (Or.inl (by
      push_cast; linarith [Real.pi_gt_d6, Real.pi_lt_d6]))) (abs_le.mpr ⟨by
      push_cast; linarith [Real.pi_gt_d6, Real.pi_lt_d6], by
      push_cast; linarith [Real.pi_gt_d6, Real.pi_lt_d6]⟩)
  · have hx : sampleX 10 50 26 = 0.4 := by norm_num [sampleX]
    rw [hx]
    refine abs_cos_lower_bound 0.4 0 (le_abs.mpr (Or.inr (by
      push_cast; linarith [Real.pi_gt_d6, Real.pi_lt_d6]))) (abs_le.mpr ⟨by
      push_cast; linarith [Real.pi_gt_d6, Real.pi_lt_d6], by
      push_cast; linarith [Real.pi_gt_d6, Real.pi_lt_d6]⟩)
  · have hx : sampleX 10 50 27 = 0.8 := by norm_num [sampleX]
    rw [hx]
    refine abs_cos_lower_bound 0.8 0 (le_abs.mpr (Or.inr (by
      push_cast; linarith [Real.pi_gt_d6, Real.pi_lt_d6]))) (abs_le.mpr ⟨by
      push_cast; linarith [Real.pi_gt_d6, Real.pi_lt_d6], by
      push_cast; linarith [Real.pi_gt_d6, Real.pi_lt_d6]⟩)
  · have hx : sampleX 10 50 28 = 1.2 := by norm_num [sampleX]
    rw [hx]
    refine abs_cos_lower_bound 1.2 0 (le_abs.mpr (Or.inr (by
      push_cast; linarith [Real.pi_gt_d6, Real.pi_lt_d6]))) (abs_le.mpr ⟨by
      push_cast; linarith [Real.pi_gt_d6, Real.pi_lt_d6], by
      push_cast; linarith [Real.pi_gt_d6, Real.pi_lt_d6]⟩)
  · have hx : sampleX 10 50 29 = 1.6 := by norm_num [sampleX]
    rw [hx]
    refine abs_cos_lower_bound 1.6 0 (le_abs.mpr (Or.inl (by
      push_cast; linarith [Real.pi_gt_d6, Real.pi_lt_d6]))) (abs_le.mpr ⟨by
      push_cast; linarith [Real.pi_gt_d6, Real.pi_lt_d6], by
      push_cast; linarith [Real.pi_gt_d6, Real.pi_lt_d6]⟩)
  · have hx : sampleX 10 50 30 = 2.0 := by norm_num [sampleX]
    rw [hx]
    refine abs_cos_lower_bound 2.0 0 (le_abs.mpr (Or.inl (by
      push_cast; linarith [Real.pi_gt_d6, Real.pi_lt_d6]))) (abs_le.mpr ⟨by
      push_cast; linarith [Real.pi_gt_d6, Real.pi_lt_d6], by
      push_cast; linarith [Real.pi_gt_d6, Real.pi_lt_d6]⟩)
  · have hx : sampleX 10 50 31 = 2.4 := by norm_num [sampleX]
    rw [hx]
    refine abs_cos_lower_bound 2.4 0 (le_abs.mpr (Or.inl (by
      push_cast; linarith [Real.pi_gt_d6, Real.pi_lt_d6]))) (abs_le.mpr ⟨by
      push_cast; linarith [Real.pi_gt_d6, Real.pi_lt_d6], by
      push_cast; linarith [Real.pi_gt_d6, Real.pi_lt_d6]⟩)
  · have hx : sampleX 10 50 32 = 2.8 := by norm_num [sampleX]
    rw [hx]
    refine abs_cos_lower_bound 2.8 0 (le_abs.mpr (Or.inl (by
      push_cast; linarith [Real.pi_gt_d6, Real.pi_lt_d6]))) (abs_le.mpr ⟨by
      push_cast; linarith [Real.pi_gt_d6, Real.pi_lt_d6], by
      push_cast; linarith [Real.pi_gt_d6, Real.pi_lt_d6]⟩)
  · have hx : sampleX 10 50 33 = 3.2 := by norm_num [sampleX]
    rw [hx]
    refine abs_cos_lower_bound 3.2 1 (le_abs.mpr (Or.inr (by
      push_cast; linarith [Real.pi_gt_d6, Real.pi_lt_d6]))) (abs_le.mpr ⟨by
      push_cast; linarith [Real.pi_gt_d6, Real.pi_lt_d6], by
      push_cast; linarith [Real.pi_gt_d6, Real.pi_lt_d6]⟩)
  · have hx : sampleX 10 50 34 = 3.6 := by norm_num [sampleX]
    rw [hx]
    refine abs_cos_lower_bound 3.6 1 (le_abs.mpr (Or.inr (by
      push_cast; linarith [Real.pi_gt_d6, Real.pi_lt_d6]))) (abs_le.mpr ⟨by
      push_cast; linarith [Real.pi_gt_d6, Real.pi_lt_d6], by
      push_cast; linarith [Real.pi_gt_d6, Real.pi_lt_d6]⟩)
  · have hx : sampleX 10 50 35 = 4.0 := by norm_num [sampleX]
    rw [hx]
    refine abs_cos_lower_bound 4.0 1 (le_abs.mpr (Or.inr (by
      push_cast; linarith [Real.pi_gt_d6, Real.pi_lt_d6]))) (abs_le.mpr ⟨by
      push_cast; linarith [Real.pi_gt_d6, Real.pi_lt_d6], by
      push_cast; linarith [Real.pi_gt_d6, Real.pi_lt_d6]⟩)
  · have hx : sampleX 10 50 36 = 4.4 := by norm_num [sampleX]
    rw [hx]
    refine abs_cos_lower_bound 4.4 1 (le_abs.mpr (Or.inr (by
      push_cast; linarith [Real.pi_gt_d6, Real.pi_lt_d6]))) (abs_le.mpr ⟨by
      push_cast; linarith [Real.pi_gt_d6, Real.pi_lt_d6], by
      push_cast; linarith [Real.pi_gt_d6, Real.pi_lt_d6]⟩)
  · have hx : sampleX 10 50 37 = 4.8 := by norm_num [sampleX]
    rw [hx]
    refine abs_cos_lower_bound 4.8 1 (le_abs.mpr (Or.inl (by
      push_cast; linarith [Real.pi_gt_d6, Real.pi_lt_d6]))) (abs_le.mpr ⟨by
      push_cast; linarith [Real.pi_gt_d6, Real.pi_lt_d6], by
      push_cast; linarith [Real.pi_gt_d6, Real.pi_lt_d6]⟩)
  · have hx : sampleX 10 50 38 = 5.2 := by norm_num [sampleX]
    rw [hx]
    refine abs_cos_lower_bound 5.2 1 (le_abs.mpr (Or.inl (by
      push_cast; linarith [Real.pi_gt_d6, Real.pi_lt_d6]))) (abs_le.mpr ⟨by
      push_cast; linarith [Real.pi_gt_d6, Real.pi_lt_d6], by
      push_cast; linarith [Real.pi_gt_d6, Real.pi_lt_d6]⟩)
  · have hx : sampleX 10 50 39 = 5.6 := by norm_num [sampleX]
    rw [hx]
    refine abs_cos_lower_bound 5.6 1 (le_abs.mpr (Or.inl (by
      push_cast; linarith [Real.pi_gt_d6, Real.pi_lt_d6]))) (abs_le.mpr ⟨by
      push_cast; linarith [Real.pi_gt_d6, Real.pi_lt_d6], by
      push_cast; linarith [Real.pi_gt_d6, Real.pi_lt_d6]⟩)
  · have hx : sampleX 10 50 40 = 6.0 := by norm_num [sampleX]
    rw [hx]
    refine abs_cos_lower_bound 6.0 1 (le_abs.mpr (Or.inl (by
      push_cast; linarith [Real.pi_gt_d6, Real.pi_lt_d6]))) (abs_le.mpr ⟨by
      push_cast; linarith [Real.pi_gt_d6, Real.pi_lt_d6], by
      push_cast; linarith [Real.pi_gt_d6, Real.pi_lt_d6]⟩)
  · have hx : sampleX 10 50 41 = 6.4 := by norm_num [sampleX]
    rw [hx]
    refine abs_cos_lower_bound 6.4 2 (le_abs.mpr (Or.inr (by
      push_cast; linarith [Real.pi_gt_d6, Real.pi_lt_d6]))) (abs_le.mpr ⟨by
      push_cast; linarith [Real.pi_gt_d6, Real.pi_lt_d6], by
      push_cast; linarith [Real.pi_gt_d6, Real.pi_lt_d6]⟩)
  · have hx : sampleX 10 50 42 = 6.8 := by norm_num [sampleX]
    rw [hx]
    refine abs_cos_lower_bound 6.8 2 (le_abs.mpr (Or.inr (by
      push_cast; linarith [Real.pi_gt_d6, Real.pi_lt_d6]))) (abs_le.mpr ⟨by
      push_cast; linarith [Real.pi_gt_d6, Real.pi_lt_d6], by
      push_cast; linarith [Real.pi_gt_d6, Real.pi_lt_d6]⟩)
  · have hx : sampleX 10 50 43 = 7.2 := by norm_num [sampleX]
    rw [hx]
    refine abs_cos_lower_bound 7.2 2 (le_abs.mpr (Or.inr (by
      push_cast; linarith [Real.pi_gt_d6, Real.pi_lt_d6]))) (abs_le.mpr ⟨by
      push_cast; linarith [Real.pi_gt_d6, Real.pi_lt_d6], by
      push_cast; linarith [Real.pi_gt_d6, Real.pi_lt_d6]⟩)
  · have hx : sampleX 10 50 44 = 7.6 := by norm_num [sampleX]
    rw [hx]
    refine abs_cos_lower_bound 7.6 2 (le_abs.mpr (Or.inr (by
      push_cast; linarith [Real.pi_gt_d6, Real.pi_lt_d6]))) (abs_le.mpr ⟨by
      push_cast; linarith [Real.pi_gt_d6, Real.pi_lt_d6], by
      push_cast; linarith [Real.pi_gt_d6, Real.pi_lt_d6]⟩)
  · have hx : sampleX 10 50 45 = 8.0 := by norm_num [sampleX]
    rw [hx]
    refine abs_cos_lower_bound 8.0 2 (le_abs.mpr (Or.inl (by
      push_cast; linarith [Real.pi_gt_d6, Real.pi_lt_d6]))) (abs_le.mpr ⟨by
      push_cast; linarith [Real.pi_gt_d6, Real.pi_lt_d6], by
      push_cast; linarith [Real.pi_gt_d6, Real.pi_lt_d6]⟩)
  · have hx : sampleX 10 50 46 = 8.4 := by norm_num [sampleX]
    rw [hx]
    refine abs_cos_lower_bound 8.4 2 (le_abs.mpr (Or.inl (by
      push_cast; linarith [Real.pi_gt_d6, Real.pi_lt_d6]))) (abs_le.mpr ⟨by
      push_cast; linarith [Real.pi_gt_d6, Real.pi_lt_d6], by
      push_cast; linarith [Real.pi_gt_d6, Real.pi_lt_d6]⟩)
  · have hx : sampleX 10 50 47 = 8.8 := by norm_num [sampleX]
    rw [hx]
    refine abs_cos_lower_bound 8.8 2 (le_abs.mpr (Or.inl (by
      push_cast; linarith [Real.pi_gt_d6, Real.pi_lt_d6]))) (abs_le.mpr ⟨by
      push_cast; linarith [Real.pi_gt_d6, Real.pi_lt_d6], by
      push_cast; linarith [Real.pi_gt_d6, Real.pi_lt_d6]⟩)
  · have hx : sampleX 10 50 48 = 9.2 := by norm_num [sampleX]
    rw [hx]
    refine abs_cos_lower_bound 9.2 2 (le_abs.mpr (Or.inl (by
      push_cast; linarith [Real.pi_gt_d6, Real.pi_lt_d6]))) (abs_le.mpr ⟨by
      push_cast; linarith [Real.pi_gt_d6, Real.pi_lt_d6], by
      push_cast; linarith [Real.pi_gt_d6, Real.pi_lt_d6]⟩)
  · have hx : sampleX 10 50 49 = 9.6 := by norm_num [sampleX]
    rw [hx]
    refine abs_cos_lower_bound 9.6 3 (le_abs.mpr (Or.inr (by
      push_cast; linarith [Real.pi_gt_d6, Real.pi_lt_d6]))) (abs_le.mpr ⟨by
      push_cast; linarith [Real.pi_gt_d6, Real.pi_lt_d6], by
      push_cast; linarith [Real.pi_gt_d6, Real.pi_lt_d6]⟩)
  · have hx : sampleX 10 50 50 = 10.0 := by norm_num [sampleX]
    rw [hx]
    refine abs_cos_lower_bound 10.0 3 (le_abs.mpr (Or.inr (by
      push_cast; linarith [Real.pi_gt_d6, Real.pi_lt_d6]))) (abs_le.mpr ⟨by
      push_cast; linarith [Real.pi_gt_d6, Real.pi_lt_d6], by
      push_cast; linarith [Real.pi_gt_d6, Real.pi_lt_d6]⟩)

/-- Every sample of the tangent sweep at resolution 50 is valid: no sample
triggers the asymptote tolerance or the magnitude break. -/
theorem tangentPoints_isSome : ∀ i, i ≤ 50 → ((tangentPoints 50) i).isSome := by
  intro i hi
  have hcos := tangent_samples_cos_bound i hi
  have hsome := tangentCalc_some (sampleX 10 50 i) hcos
  simp [tangentPoints, graph2DPoints, hsome]

/-- C3 counterexample: sampling the Tangent branch over [-10, 10] at
resolution 50 produces exactly one segment, not the claimed two or more:
every sample stays at least 0.029 away from each asymptote, so the 0.01
cosine tolerance and the 100 magnitude guard never fire. -/
theorem c3_counterexample :
    (segmentsOf (tangentPoints 50) 50).length = 1 ∧
      ¬ 2 ≤ (segmentsOf (tangentPoints 50) 50).length := by
  have hseg := segmentsOf_all_some (tangentPoints 50) 50 (by norm_num) tangentPoints_isSome
  rw [hseg]
  exact ⟨by simp, by simp⟩

/-- C3 (amended): at resolution 50 the tangent sweep yields exactly one
segment (no sample falls within the asymptote tolerance), and the chosen
polyline still contains no point with |y| above 100, because the branch
replaces any such value with NaN before it can enter a segment. -/
theorem c3_theorem :
    (segmentsOf (tangentPoints 50) 50).length = 1 ∧
    ∀ p ∈ chooseLongest (segmentsOf (tangentPoints 50) 50), |p.y| ≤ 100 := by
  have hseg := segmentsOf_all_some (tangentPoints 50) 50 (by norm_num) tangentPoints_isSome
  constructor
  · rw [hseg]
    simp
  · intro p hp
    have hQ : ∀ i b, tangentPoints 50 i = some b → |b.y| ≤ 100 := by
      intro i b hib
      simp only [tangentPoints, graph2DPoints, Option.map_eq_some'] at hib
      obtain ⟨yv, htc, hb⟩ := hib
      have hy : |yv| ≤ 100 := by
        unfold tangentCalc at htc
        by_cases h1 : |Real.cos (1 * sampleX 10 50 i + 0)| < 0.01
        · rw [if_pos h1] at htc
          exact absurd htc (by simp)
        · rw [if_neg h1] at htc
          by_cases h2 : 100 < |1 * Real.tan (1 * sampleX 10 50 i + 0)|
          · rw [if_pos h2] at htc
            exact absurd htc (by simp)
          · rw [if_neg h2] at htc
            push_neg at h2
            have hyv : yv = 1 * Real.tan (1 * sampleX 10 50 i + 0) :=
              (Option.some.inj htc).symm
            rw [hyv]
            exact h2
      rw [← hb]
      exact hy
    have hne : segmentsOf (tangentPoints 50) 50 ≠ [] := by
      rw [hseg]
      simp
    have hmem := chooseLongest_mem (segmentsOf (tangentPoints 50) 50) hne
    exact segmentsOf_pred (fun q => |q.y| ≤ 100) (tangentPoints 50) hQ 50 _ hmem p hp

/-- C3 witness: the first sample of the tangent sweep is in the chosen
polyline and its magnitude bound follows from the theorem. -/
theorem c3_witness :
    Pt.mk (sampleX 10 50 0) (1 * Real.tan (1 * sampleX 10 50 0 + 0)) ∈
        chooseLongest (segmentsOf (tangentPoints 50) 50) ∧
      |(Pt.mk (sampleX 10 50 0) (1 * Real.tan (1 * sampleX 10 50 0 + 0))).y| ≤ 100 := by
  have hmem : Pt.mk (sampleX 10 50 0) (1 * Real.tan (1 * sampleX 10 50 0 + 0)) ∈
      chooseLongest (segmentsOf (tangentPoints 50) 50) := by
    rw [segmentsOf_all_some (tangentPoints 50) 50 (by norm_num) tangentPoints_isSome,
      chooseLongest_singleton]
    apply List.mem_filterMap.mpr
    refine ⟨0, by simp, ?_⟩
    simp [tangentPoints, graph2DPoints,
      tangentCalc_some (sampleX 10 50 0) (tangent_samples_cos_bound 0 (by norm_num))]
  exact ⟨hmem, c3_theorem.2 _ hmem⟩

/-! ### Notation normalizer (convertLatexToMathjs, C8)

The source is a fixed chain of JS regex replacements. Each pattern used
there is a sequence of literals, single-character classes, greedy
one-or-more classes, and one two-way alternation; for every one of those
patterns the greedy match can never need backtracking (a class repeated
greedily can never consume the character the following literal expects,
and the two alternation branches start with disjoint characters), so the
committed-greedy matcher below computes exactly the JS match. Replacement
is global and resumes after the consumed text, as JS lastIndex does. -/

inductive RAtom where
  | lit : List Char → RAtom
  | cls : (Char → Bool) → RAtom
  | plus : (Char → Bool) → RAtom
  | alt : List RAtom → List RAtom → RAtom

inductive RTok where
  | text : List Char → RTok
  | grp : ℕ → RTok

mutual

def matchSeq : List RAtom → List Char → Option (List (List Char) × List Char)
  | [], s => some ([], s)
  | a :: rest, s =>
      match matchAtom a s with
      | none => none
      | some (txt, s1) =>
          match matchSeq rest s1 with
          | none => none
          | some (caps, s2) => some (txt :: caps, s2)

def matchAtom : RAtom → List Char → Option (List Char × List Char)
  | .lit cs, s => if isPrefixList cs s then some (cs, s.drop cs.length) else none
  | .cls p, s =>
      match s with
      | [] => none
      | c :: rest => if p c then some ([c], rest) else none
  | .plus p, s =>
      let t := s.takeWhile p
      if t.isEmpty then none else some (t, s.drop t.length)
  | .alt a b, s =>
      match matchSeq a s with
      | some (caps, s1) => some (caps.flatten, s1)
      | none =>
          match matchSeq b s with
          | some (caps, s1) => some (caps.flatten, s1)
          | none => none

end

def renderRepl (caps : List (List Char)) : List RTok → List Char
  | [] => []
  | .text t :: rest => t ++ renderRepl caps rest
  | .grp n :: rest => caps.getD n [] ++ renderRepl caps rest

/-- The scan loop of a global regex replacement, with explicit fuel (one
unit per scan step; the input length always suffices since every step
consumes at least one character). -/
def replaceAllGo (pat : List RAtom) (tmpl : List RTok) : ℕ → List Char → List Char
  | _, [] => []
  | 0, s => s
  | fuel + 1, c :: rest =>
      match matchSeq pat (c :: rest) with
      | some (caps, s1) =>
          if s1.length < (c :: rest).length then
            renderRepl caps tmpl ++ replaceAllGo pat tmpl fuel s1
          else c :: replaceAllGo pat tmpl fuel rest
      | none => c :: replaceAllGo pat tmpl fuel rest

/-- Global regex replacement: scan left to right, emit the rendered
template on a match and resume after the consumed text, otherwise copy one
character and move on. -/
def replaceAll (pat : List RAtom) (tmpl : List RTok) (s : List Char) : List Char :=
  replaceAllGo pat tmpl s.length s

/-- One literal-for-literal global replacement. -/
def replaceLit (f t : String) (s : List Char) : List Char :=
  replaceAll [RAtom.lit f.data] [RTok.text t.data] s

/-- The function-name whitelist consulted by the letter-pair callback. -/
def mathFunctionNames : List String := ["sin", "cos", "tan", "log", "exp", "pi"]

def isLowerAZ (c : Char) : Bool := 'a' ≤ c && c ≤ 'z'

/-- The /([a-z])([a-z])/g replacement with the whitelist callback: two
adjacent lowercase letters become letter-star-letter unless the pair is a
whitelisted name (only the two-letter name pi can ever match); scanning
resumes after the pair either way. -/
def replaceLetterPairs : List Char → List Char
  | c1 :: c2 :: rest =>
      if isLowerAZ c1 && isLowerAZ c2 then
        if mathFunctionNames.contains (String.mk [c1, c2]) then
          c1 :: c2 :: replaceLetterPairs rest
        else
          c1 :: '*' :: c2 :: replaceLetterPairs rest
      else c1 :: replaceLetterPairs (c2 :: rest)
  | s => s

def notCloseBrace (c : Char) : Bool := c != '\x7d'

def notCloseParen (c : Char) : Bool := c != ')'

def alphaChar (c : Char) : Bool := ('a' ≤ c && c ≤ 'z') || ('A' ≤ c && c ≤ 'Z')

def digitChar (c : Char) : Bool := c.isDigit

/-- JS String.prototype.split on one character (never empty). -/
def splitOnChar (c : Char) : List Char → List (List Char)
  | [] => [[]]
  | h :: t =>
      let rest := splitOnChar c t
      if h = c then [] :: rest
      else
        match rest with
        | r :: rs => (h :: r) :: rs
        | [] => [[h]]

/-- The leading step of convertLatexToMathjs: when the text contains an
equals sign, keep the piece after the first one (split('=')[1]) and trim
it. -/
def stripLhs (latex : String) : String :=
  if jsContainsChar latex '=' then
    jsTrim (String.mk ((splitOnChar '=' latex.data).getD 1 []))
  else latex

/-- convertLatexToMathjs: the full replacement chain of the source, in
source order - fraction and root unwrapping, powered trig rewriting,
brace-power normalization, macro expansion, proportionality and
approximation symbols, residual brace conversion, then implicit
multiplication insertion. -/
def convertLatexToMathjs (latex : String) : String :=
  let e0 := (stripLhs latex).data
  let e1 := replaceAll
    [RAtom.lit ['\\', 'f', 'r', 'a', 'c', '\x7b'], RAtom.plus notCloseBrace,
      RAtom.lit ['\x7d', '\x7b'], RAtom.plus notCloseBrace, RAtom.lit ['\x7d']]
    [RTok.text "(".data, RTok.grp 1, RTok.text ")/(".data, RTok.grp 3,
      RTok.text ")".data] e0
  let e2 := replaceAll
    [RAtom.lit ['\\', 's', 'q', 'r', 't', '\x7b'], RAtom.plus notCloseBrace,
      RAtom.lit ['\x7d']]
    [RTok.text "sqrt(".data, RTok.grp 1, RTok.text ")".data] e1
  let e3 := replaceAll
    [RAtom.lit "\\sin^".data, RAtom.plus digitChar, RAtom.lit "(".data,
      RAtom.plus notCloseParen, RAtom.lit ")".data]
    [RTok.text "sin(".data, RTok.grp 3, RTok.text ")^".data, RTok.grp 1] e2
  let e4 := replaceAll
    [RAtom.lit "\\cos^".data, RAtom.plus digitChar, RAtom.lit "(".data,
      RAtom.plus notCloseParen, RAtom.lit ")".data]
    [RTok.text "cos(".data, RTok.grp 3, RTok.text ")^".data, RTok.grp 1] e3
  let e5 := replaceAll
    [RAtom.lit "\\tan^".data, RAtom.plus digitChar, RAtom.lit "(".data,
      RAtom.plus notCloseParen, RAtom.lit ")".data]
    [RTok.text "tan(".data, RTok.grp 3, RTok.text ")^".data, RTok.grp 1] e4
  let e6 := replaceAll
    [RAtom.lit ['^', '\x7b'], RAtom.plus notCloseBrace, RAtom.lit ['\x7d']]
    [RTok.text "^(".data, RTok.grp 1, RTok.text ")".data] e5
  let e7 := replaceLit "\\sin" "sin" e6
  let e8 := replaceLit "\\cos" "cos" e7
  let e9 := replaceLit "\\tan" "tan" e8
  let e10 := replaceLit "\\ln" "log" e9
  let e11 := replaceLit "\\log" "log" e10
  let e12 := replaceLit "\\exp" "exp" e11
  let e13 := replaceLit "\\pi" "pi" e12
  let e14 := replaceLit "\\theta" "theta" e13
  let e15 := replaceLit "\\delta" "delta" e14
  let e16 := replaceLit "\\phi" "phi" e15
  let e17 := replaceLit "\\omega" "omega" e16
  let e18 := replaceLit "\\gamma" "gamma" e17
  let e19 := replaceLit "\\e" "e" e18
  let e20 := replaceLit "\\propto" "*" e19
  let e21 := replaceLit "\\approx" "=" e20
  let e22 := replaceAll
    [RAtom.lit ['\x7b'], RAtom.plus notCloseBrace, RAtom.lit ['\x7d']]
    [RTok.text "(".data, RTok.grp 1, RTok.text ")".data] e21
  let e23 := replaceLetterPairs e22
  let e24 := replaceAll [RAtom.plus digitChar, RAtom.cls alphaChar]
    [RTok.grp 0, RTok.text "*".data, RTok.grp 1] e23
  let e25 := replaceAll [RAtom.cls alphaChar, RAtom.plus digitChar]
    [RTok.grp 0, RTok.text "*".data, RTok.grp 1] e24
  let e26 := replaceAll
    [RAtom.lit ")".data, RAtom.cls (fun c => alphaChar c || c == '(')]
    [RTok.grp 0, RTok.text "*".data, RTok.grp 1] e25
  let e27 := replaceAll
    [RAtom.cls (fun c => alphaChar c || digitChar c), RAtom.lit "(".data]
    [RTok.grp 0, RTok.text "*".data, RTok.grp 1] e26
  let e28 := replaceAll
    [RAtom.lit "^".data,
      RAtom.alt [RAtom.plus digitChar]
        [RAtom.lit "(".data, RAtom.plus notCloseParen, RAtom.lit ")".data],
      RAtom.cls alphaChar]
    [RTok.grp 0, RTok.grp 1, RTok.text "*".data, RTok.grp 2] e27
  String.mk e28

/-- C8: the notation normalizer is a total function from strings to
strings - every input produces an output string and no input is rejected;
malformed LaTeX (an unterminated sqrt brace, unbalanced parentheses)
degrades to a best-effort rewrite of whatever still matches, and text with
no recognized pattern passes through unchanged. -/
theorem c8_theorem :
    (∀ latex : String, ∃ out : String, convertLatexToMathjs latex = out) ∧
    convertLatexToMathjs "x + 2" = "x + 2" ∧
    convertLatexToMathjs "\\sqrt\x7b2" = "\\s*qr*t\x7b2" ∧
    convertLatexToMathjs "((" = "((" :=
  ⟨fun latex => ⟨convertLatexToMathjs latex, rfl⟩, by decide, by decide, by decide⟩

end Graphyti
